import Mathlib

/-!
# SIP protocol engine

Shallow embedding of the events (`Timeout.go`, `ResponseEvent.go`) and of the parser
that `parser/Torture2_test.go` and `parser/Torture5_test.go` drive.

Go's `int` is embedded as `Int`: the event code only stores, returns and compares
the integer, so no arithmetic can overflow.  A `*Timeout` receiver is embedded by
explicit state passing: a mutating method returns the new object.

Of package `parser` only the two test files are among the sources.  The fixture lists
and the test loops are embedded from them; the lexer, the header grammars, the message
assembler and the serializer are modelled from the specification (sections 3, 4.1 to
4.3 and 7), and where the specification is silent from the golden forms of the tests.
-/

namespace Sip

/-! ## Timeout.go -/

/-- Constant `TIMEOUT_RETRANSMIT = iota` of Timeout.go: the first constant of the block. -/
def TIMEOUT_RETRANSMIT : Int := 0

/-- Constant `TIMEOUT_TRANSACTION` of Timeout.go: the second constant of the iota block. -/
def TIMEOUT_TRANSACTION : Int := 1

/-- Struct `Timeout` of Timeout.go: one field, the integer `timeout`. -/
structure Timeout where
  timeout : Int
  deriving DecidableEq, Repr

/-- Constructor `NewTimeout(timeout int) *Timeout`: stores the argument unchecked. -/
def NewTimeout (timeout : Int) : Timeout :=
  { timeout := timeout }

/-- Method `GetValue`: returns the stored integer. -/
def Timeout.GetValue (this : Timeout) : Int :=
  this.timeout

/-- Method `SetValue`: overwrites the stored integer; the result is the receiver afterwards. -/
def Timeout.SetValue (_this : Timeout) (timeout : Int) : Timeout :=
  { timeout := timeout }

/-- Method `String`: the three-way switch on the stored integer. -/
def Timeout.String (this : Timeout) : String :=
  if this.timeout = TIMEOUT_RETRANSMIT then "Retransmission Timeout"
  else if this.timeout = TIMEOUT_TRANSACTION then "Transaction Timeout"
  else "Error while printing Timeout"

/-- One call of an exported method of `Timeout` on an existing object. -/
inductive TimeoutOp where
  | getValue : TimeoutOp
  | setValue : Int → TimeoutOp
  | string : TimeoutOp
  deriving DecidableEq, Repr

/-- The receiver after one exported call: only `SetValue` writes the field. -/
def TimeoutOp.apply (t : Timeout) : TimeoutOp → Timeout
  | .getValue => t
  | .setValue v => t.SetValue v
  | .string => t

/-- The receiver after a sequence of exported calls, applied left to right. -/
def Timeout.run (t : Timeout) (ops : List TimeoutOp) : Timeout :=
  ops.foldl TimeoutOp.apply t

/-- Whether an exported call is a `SetValue`. -/
def TimeoutOp.isSet : TimeoutOp → Bool
  | .setValue _ => true
  | _ => false

/-- Whether an exported call passes only a declared kind (calls without an argument do). -/
def TimeoutOp.declaredArg : TimeoutOp → Prop
  | .setValue v => v = TIMEOUT_RETRANSMIT ∨ v = TIMEOUT_TRANSACTION
  | _ => True

/-! ## ResponseEvent.go -/

/-- Struct `ResponseEvent` of ResponseEvent.go.  The interfaces `ClientTransaction` and
`Response` are declared elsewhere in the package; they are type parameters here. -/
structure ResponseEvent (ClientTransaction Response : Type) where
  transaction : ClientTransaction
  response : Response

/-- Constructor `NewResponseEvent(clientTransaction, response)`. -/
def NewResponseEvent {ClientTransaction Response : Type}
    (clientTransaction : ClientTransaction) (response : Response) :
    ResponseEvent ClientTransaction Response :=
  { transaction := clientTransaction, response := response }

/-- Method `GetClientTransaction`. -/
def ResponseEvent.GetClientTransaction {ClientTransaction Response : Type}
    (this : ResponseEvent ClientTransaction Response) : ClientTransaction :=
  this.transaction

/-- Method `GetResponse`. -/
def ResponseEvent.GetResponse {ClientTransaction Response : Type}
    (this : ResponseEvent ClientTransaction Response) : Response :=
  this.response

/-- One call of an exported method of `ResponseEvent` on an existing object. -/
inductive ResponseEventOp where
  | getClientTransaction : ResponseEventOp
  | getResponse : ResponseEventOp
  deriving DecidableEq, Repr

/-- The receiver after one exported call: both methods only read. -/
def ResponseEventOp.apply {ClientTransaction Response : Type}
    (e : ResponseEvent ClientTransaction Response) :
    ResponseEventOp → ResponseEvent ClientTransaction Response
  | .getClientTransaction => e
  | .getResponse => e

/-- The receiver after a sequence of exported calls, applied left to right. -/
def ResponseEvent.run {ClientTransaction Response : Type}
    (e : ResponseEvent ClientTransaction Response) (ops : List ResponseEventOp) :
    ResponseEvent ClientTransaction Response :=
  ops.foldl ResponseEventOp.apply e

/-! ## Package parser: text

`Torture2_test.go` and `Torture5_test.go` drive `ParseSIPMessage`, `CreateParser`,
`Parse` and `String`.  A Go string is embedded as the list of its bytes, one `Char`
per byte (the conformance corpus is ASCII), so `len` is `List.length`. -/

namespace Parser

/-- A Go string: its bytes in order. -/
abbrev Text := List Char

/-- Carriage return. -/
def CR : Char := Char.ofNat 13

/-- Line feed. -/
def LF : Char := Char.ofNat 10

/-- Horizontal tab. -/
def HT : Char := Char.ofNat 9

/-- The double quote. -/
def DQUOTE : Char := Char.ofNat 34

/-- The backslash. -/
def BACKSLASH : Char := Char.ofNat 92

/-- The line terminator written on the wire. -/
def CRLF : Text := [CR, LF]

/-- White space as `strings.TrimSpace` sees it on ASCII text: tab, line feed, vertical
tab, form feed, carriage return and space. -/
def isSpace (c : Char) : Bool :=
  c = ' ' || c = HT || c = LF || c = Char.ofNat 11 || c = Char.ofNat 12 || c = CR

/-- Drops leading white space. -/
def trimLeft (t : Text) : Text :=
  t.dropWhile isSpace

/-- Drops trailing white space. -/
def trimRight (t : Text) : Text :=
  (t.reverse.dropWhile isSpace).reverse

/-- Go's `strings.TrimSpace` on ASCII text: leading and trailing white space removed. -/
def TrimSpace (t : Text) : Text :=
  trimRight (trimLeft t)

/-- Whether a byte is an ASCII decimal digit. -/
def isDigit (c : Char) : Bool :=
  decide (48 ≤ c.toNat) && decide (c.toNat ≤ 57)

/-- A non-empty run of decimal digits. -/
def allDigits (t : Text) : Bool :=
  !t.isEmpty && t.all isDigit

/-- ASCII lower case of one byte. -/
def lowerChar (c : Char) : Char :=
  if 65 ≤ c.toNat ∧ c.toNat ≤ 90 then Char.ofNat (c.toNat + 32) else c

/-- ASCII lower case of a text. -/
def lower (t : Text) : Text :=
  t.map lowerChar

/-- The first white-space-delimited token of a text that starts with one. -/
def firstToken (t : Text) : Text :=
  t.takeWhile (fun c => !isSpace c)

/-- What follows the first token, without the white space between. -/
def afterFirstToken (t : Text) : Text :=
  trimLeft (t.dropWhile (fun c => !isSpace c))

/-- The last white-space-delimited token of a text that ends with one. -/
def lastToken (t : Text) : Text :=
  (t.reverse.takeWhile (fun c => !isSpace c)).reverse

/-- What precedes the last token, without the white space between. -/
def beforeLastToken (t : Text) : Text :=
  trimRight (t.reverse.dropWhile (fun c => !isSpace c)).reverse

/-- The decimal digit for a value below ten. -/
def digitChar (d : Nat) : Char :=
  Char.ofNat (48 + d)

/-- Decimal digits of `n` prepended to `acc`; `fuel` bounds the number of digits. -/
def decimalAux : Nat → Nat → Text → Text
  | 0, _, acc => acc
  | fuel + 1, n, acc =>
    if n < 10 then digitChar n :: acc
    else decimalAux fuel (n / 10) (digitChar (n % 10) :: acc)

/-- Canonical decimal text of a natural number (no sign, no leading zero). -/
def decimal (n : Nat) : Text :=
  decimalAux (n + 1) n []

/-- The number a run of decimal digits denotes. -/
def digitsValue (t : Text) : Nat :=
  t.foldl (fun a c => 10 * a + (c.toNat - 48)) 0

/-- Scanner state of the lexer: inside a quoted section, right after a backslash in
one, inside angle brackets. -/
structure Scan where
  quoted : Bool
  escaped : Bool
  angle : Bool
  deriving DecidableEq, Repr

/-- The scanner at the start of a value. -/
def Scan.start : Scan :=
  { quoted := false, escaped := false, angle := false }

/-- Modelled from the spec: the Lexer/Tokenizer of spec 4.1 is not among the sources.
"Quoted substrings and escaped characters inside them are preserved verbatim; the lexer
does not interpret escapes, only avoids terminating a quoted section early": the
scanner only tracks where quoted sections and angle brackets open and close. -/
def Scan.step (s : Scan) (c : Char) : Scan :=
  if s.quoted then
    if s.escaped then { s with escaped := false }
    else if c = BACKSLASH then { s with escaped := true }
    else if c = DQUOTE then { s with quoted := false }
    else s
  else if c = DQUOTE then { s with quoted := true }
  else if c = '<' then { s with angle := true }
  else if c = '>' then { s with angle := false }
  else s

/-- Whether a separator met in this state separates: never inside a quoted section,
and outside angle brackets when `angles` asks for it. -/
def Scan.top (s : Scan) (angles : Bool) : Bool :=
  !s.quoted && (!angles || !s.angle)

/-- Puts a byte in front of the first piece of a split. -/
def consHead (c : Char) : List Text → List Text
  | [] => [[c]]
  | l :: ls => (c :: l) :: ls

/-- Splits at every separator the scanner accepts; the pieces are in order and the
separators are dropped. -/
def splitTop (angles : Bool) (sep : Char) : Scan → Text → List Text
  | _, [] => [[]]
  | s, c :: cs =>
    if s.top angles && c = sep then [] :: splitTop angles sep Scan.start cs
    else consHead c (splitTop angles sep (s.step c) cs)

/-- Cuts at the first separator the scanner accepts: the text before and after it. -/
def cutTop (angles : Bool) (sep : Char) : Scan → Text → Option (Text × Text)
  | _, [] => none
  | s, c :: cs =>
    if s.top angles && c = sep then some ([], cs)
    else match cutTop angles sep (s.step c) cs with
      | none => none
      | some (a, b) => some (c :: a, b)

/-- Cuts at the first occurrence of a byte, quoted or not. -/
def cutPlain (sep : Char) : Text → Option (Text × Text)
  | [] => none
  | c :: cs =>
    if c = sep then some ([], cs)
    else match cutPlain sep cs with
      | none => none
      | some (a, b) => some (c :: a, b)

/-! ## Package parser: header grammar (spec 3 and 4.2) -/

/-- Modelled from the spec: the error values of the parser are not among the sources.
Spec 7 names a lexical error, a fatal start-line error (4.3), a grammar error of one
header value, a version string outside the pattern (4.2) and the incomplete-message
signal. -/
inductive ParseError where
  | lexical : ParseError
  | startLine : ParseError
  | grammar : ParseError
  | version : ParseError
  | incomplete : ParseError
  deriving DecidableEq, Repr

/-- Modelled from the spec: the numeric field type is not among the sources.  Spec 4.2:
numeric fields are parsed into an integer; "overflowing or negative values are retained
as the literal text plus an invalid flag rather than truncated". -/
inductive NumericValue where
  | valid : Nat → NumericValue
  | invalid : Text → NumericValue
  deriving DecidableEq, Repr

/-- Whether a text is a number within the normal range of its field: a run of decimal
digits whose value is at most `max`. -/
def inNormalRange (max : Nat) (t : Text) : Bool :=
  allDigits t && decide (digitsValue t ≤ max)

/-- Modelled from the spec: the numeric field grammar is not among the sources.  A run of
digits within the normal range `max` of the field is a number; any other text (a sign,
an overflow, non-numeric garbage) is kept as written and flagged. -/
def parseNumeric (max : Nat) (t : Text) : NumericValue :=
  if inNormalRange max t then .valid (digitsValue t) else .invalid t

/-- Wire form of a numeric field: the number in decimal, or the retained literal. -/
def NumericValue.encode : NumericValue → Text
  | .valid n => decimal n
  | .invalid t => t

/-- Largest value of "the widest integer type available" (spec 4.2), 64 bits unsigned
(spec 3: "unsigned 64-bit-capable integer"). -/
def maxInteger : Nat := 18446744073709551615

/-- Largest Max-Forwards of the "normal 0-255 range" (spec 8, scenario 4). -/
def maxForwards : Nat := 255

/-- Largest status code of a response class (1xx to 6xx). -/
def maxStatus : Nat := 699

/-- Modelled from the spec: the parameter type is not among the sources.  One header or
address parameter of the "ordered multimap" of spec 3: a name and, after `=`, a value. -/
structure Param where
  name : Text
  value : Option Text
  deriving DecidableEq, Repr

/-- Modelled from the spec: the parameter grammar is not among the sources.  A segment
between semicolons is `name` or `name=value`, white space around either dropped; an
empty segment is an empty parameter (spec 4.2 tolerates "surplus semicolons"). -/
def parseParam (t : Text) : Param :=
  match cutTop false '=' Scan.start t with
  | none => { name := TrimSpace t, value := none }
  | some (n, v) => { name := TrimSpace n, value := some (TrimSpace v) }

/-- Wire form of a parameter, with its leading semicolon. -/
def Param.encode (p : Param) : Text :=
  match p.value with
  | none => ';' :: p.name
  | some v => ';' :: (p.name ++ '=' :: v)

/-- Wire form of a parameter list. -/
def encodeParams : List Param → Text
  | [] => []
  | p :: ps => p.encode ++ encodeParams ps

/-- Modelled from the spec: the address type is not among the sources.  The Address of
spec 3: optional display name, URI, ordered header parameters.  The URI is kept as the
text between the brackets; serialization writes it back as it came. -/
structure Address where
  displayName : Option Text
  uri : Text
  params : List Param
  deriving DecidableEq, Repr

/-- Whether a text holds white space. -/
def hasSpace (t : Text) : Bool :=
  t.any isSpace

/-- Removes the opening quote of a display name and its closing quote when there is
one (a display name whose closing quote is missing is tolerated). -/
def stripQuotes (t : Text) : Text :=
  match t with
  | [] => []
  | c :: rest =>
    if c = DQUOTE then
      match rest.reverse with
      | [] => rest
      | d :: r => if d = DQUOTE then r.reverse else rest
    else t

/-- The display name in front of the bracketed URI: quotes and surrounding white space
removed; nothing left means no display name. -/
def displayOf (before : Text) : Option Text :=
  let d := TrimSpace (stripQuotes (TrimSpace before))
  if d.isEmpty then none else some d

/-- The opening angle bracket of an address: the first one outside a quoted section,
or, when a quote is left unbalanced, the first one at all. -/
def cutAngle (v : Text) : Option (Text × Text) :=
  match cutTop false '<' Scan.start v with
  | some r => some r
  | none => cutPlain '<' v

/-- Modelled from the spec: the address grammar of To, From and Contact is not among the
sources.  Spec 3 and 4.2: `[display-name] <URI> *(;param)` or a bare `URI *(;param)`
whose parameters belong to the header; surplus white space and semicolons and display
names lacking quotes are tolerated. -/
def parseAddress (v : Text) : Except ParseError Address :=
  match cutAngle v with
  | some (before, after) =>
    match cutPlain '>' after with
    | none => .error .grammar
    | some (inner, rest) =>
      match splitTop false ';' Scan.start rest with
      | [] => .error .grammar
      | first :: ps =>
        if (TrimSpace inner).isEmpty || hasSpace (TrimSpace inner)
            || !(TrimSpace first).isEmpty then .error .grammar
        else .ok { displayName := displayOf before, uri := TrimSpace inner,
                   params := ps.map parseParam }
  | none =>
    match splitTop false ';' Scan.start v with
    | [] => .error .grammar
    | first :: ps =>
      if (TrimSpace first).isEmpty || hasSpace (TrimSpace first) then .error .grammar
      else .ok { displayName := none, uri := TrimSpace first, params := ps.map parseParam }

/-- Modelled from the spec: the address serializer is not among the sources.  Spec 4.2 and
the golden forms of Torture2_test.go: the display name is written as one quoted string,
the URI always inside angle brackets, the header parameters after the closing bracket. -/
def Address.encode (a : Address) : Text :=
  (match a.displayName with
    | none => []
    | some d => DQUOTE :: (d ++ [DQUOTE, ' '])) ++ '<' :: (a.uri ++ '>' :: encodeParams a.params)

/-- Parses the comma-separated entries of a Contact value in order. -/
def parseAddresses : List Text → Except ParseError (List Address)
  | [] => .ok []
  | e :: es =>
    match parseAddress (TrimSpace e) with
    | .error err => .error err
    | .ok a =>
      match parseAddresses es with
      | .error err => .error err
      | .ok as => .ok (a :: as)

/-- Wire form of the entries of a Contact value, separated by a comma and a space. -/
def encodeAddresses : List Address → Text
  | [] => []
  | [a] => a.encode
  | a :: b :: rest => a.encode ++ ',' :: ' ' :: encodeAddresses (b :: rest)

/-- Modelled from the spec: the Via type is not among the sources.  The Via of spec 3:
protocol and transport, sent-by host and port, parameters. -/
structure Via where
  protocolName : Text
  protocolVersion : Text
  transport : Text
  host : Text
  port : Option Text
  params : List Param
  deriving DecidableEq, Repr

/-- The pattern `SIP/<digits>.<digits>` of spec 4.2. -/
def isVersion (t : Text) : Bool :=
  match t with
  | 'S' :: 'I' :: 'P' :: '/' :: rest =>
    match rest.dropWhile isDigit with
    | '.' :: minor => !(rest.takeWhile isDigit).isEmpty && allDigits minor
    | _ => false
  | _ => false

/-- Modelled from the spec: the Via grammar is not among the sources.
`name/version/transport host[:port] *(;param)`; semicolon-separated segments are taken
as parameters whatever they hold, so trailing separators survive; a version outside the
pattern of spec 4.2 is the version error. -/
def parseVia (v : Text) : Except ParseError Via :=
  match splitTop false ';' Scan.start v with
  | [] => .error .grammar
  | first :: ps =>
    match splitTop false '/' Scan.start (firstToken (TrimSpace first)) with
    | [name, ver, transport] =>
      if name.isEmpty || transport.isEmpty || (afterFirstToken (TrimSpace first)).isEmpty
          || hasSpace (afterFirstToken (TrimSpace first)) then .error .grammar
      else if !isVersion (name ++ '/' :: ver) then .error .version
      else
        match cutPlain ':' (afterFirstToken (TrimSpace first)) with
        | none =>
          .ok { protocolName := name, protocolVersion := ver, transport := transport,
                host := afterFirstToken (TrimSpace first), port := none,
                params := ps.map parseParam }
        | some (h, p) =>
          .ok { protocolName := name, protocolVersion := ver, transport := transport,
                host := h, port := some p, params := ps.map parseParam }
    | _ => .error .grammar

/-- Wire form of a Via value. -/
def Via.encode (v : Via) : Text :=
  v.protocolName ++ '/' :: (v.protocolVersion ++ '/' :: (v.transport ++ ' ' :: (v.host ++
    (match v.port with
      | none => []
      | some p => ':' :: p) ++ encodeParams v.params)))

/-- Modelled from the spec: the header types are not among the sources.  The header
kinds of spec 3; `Extension` is the open variant. -/
inductive HeaderKind where
  | To | From | Via | CSeq | CallID | Contact | ContentLength | ContentType
  | MaxForwards | Expires | RetryAfter | Accept | Warning | Extension
  deriving DecidableEq, Repr

/-- Modelled from the spec: the header name table is not among the sources.  Names are
matched without regard to case; the one-letter entries are the compact forms (spec 4.1,
"e.g. l for Content-Length"). -/
def headerTable : List (Text × HeaderKind) :=
  [("to".toList, .To), ("t".toList, .To), ("from".toList, .From), ("f".toList, .From),
   ("via".toList, .Via), ("v".toList, .Via), ("cseq".toList, .CSeq),
   ("call-id".toList, .CallID), ("i".toList, .CallID),
   ("contact".toList, .Contact), ("m".toList, .Contact),
   ("content-length".toList, .ContentLength), ("l".toList, .ContentLength),
   ("content-type".toList, .ContentType), ("c".toList, .ContentType),
   ("max-forwards".toList, .MaxForwards), ("expires".toList, .Expires),
   ("retry-after".toList, .RetryAfter), ("accept".toList, .Accept),
   ("warning".toList, .Warning)]

/-- The kind a header name stands for. -/
def classify (name : Text) : HeaderKind :=
  match headerTable.lookup (lower name) with
  | some k => k
  | none => .Extension

/-- The canonical name of a header kind; an extension header keeps the name it came with. -/
def HeaderKind.wireName (k : HeaderKind) (written : Text) : Text :=
  match k with
  | .To => "To".toList
  | .From => "From".toList
  | .Via => "Via".toList
  | .CSeq => "CSeq".toList
  | .CallID => "Call-ID".toList
  | .Contact => "Contact".toList
  | .ContentLength => "Content-Length".toList
  | .ContentType => "Content-Type".toList
  | .MaxForwards => "Max-Forwards".toList
  | .Expires => "Expires".toList
  | .RetryAfter => "Retry-After".toList
  | .Accept => "Accept".toList
  | .Warning => "Warning".toList
  | .Extension => written

/-- The largest value of the normal range of a numeric header: 255 for Max-Forwards,
the widest integer for the others. -/
def HeaderKind.normalMax (k : HeaderKind) : Nat :=
  match k with
  | .MaxForwards => maxForwards
  | _ => maxInteger

/-- Modelled from the spec: the header value types are not among the sources.  The typed
value of a header (spec 3).  `extension` is the opaque value of an unrecognized header;
`unparsed` retains the original text of a value its grammar could not parse (spec 7). -/
inductive HeaderValue where
  | address : Address → HeaderValue
  | contacts : List Address → HeaderValue
  | star : HeaderValue
  | via : Via → HeaderValue
  | cseq : NumericValue → Text → HeaderValue
  | callId : Text → HeaderValue
  | numeric : NumericValue → HeaderValue
  | text : Text → HeaderValue
  | extension : Text → HeaderValue
  | unparsed : Text → HeaderValue
  deriving DecidableEq, Repr

/-- Wire form of a header value. -/
def HeaderValue.encode : HeaderValue → Text
  | .address a => a.encode
  | .contacts as => encodeAddresses as
  | .star => ['*']
  | .via v => v.encode
  | .cseq n m => n.encode ++ ' ' :: m
  | .callId t => t
  | .numeric n => n.encode
  | .text t => t
  | .extension t => t
  | .unparsed t => t

/-- Modelled from the spec: the per-header parsers are not among the sources.  Spec 4.2,
`parse(rawValue) -> (TypedHeader, error)`, on a value without surrounding white space. -/
def parseValue (k : HeaderKind) (v : Text) : Except ParseError HeaderValue :=
  match k with
  | .To | .From =>
    match parseAddress v with
    | .error e => .error e
    | .ok a => .ok (.address a)
  | .Contact =>
    if v = ['*'] then .ok .star
    else
      match parseAddresses (splitTop true ',' Scan.start v) with
      | .error e => .error e
      | .ok as => .ok (.contacts as)
  | .Via =>
    match parseVia v with
    | .error e => .error e
    | .ok x => .ok (.via x)
  | .CSeq =>
    if (firstToken v).isEmpty || (afterFirstToken v).isEmpty || hasSpace (afterFirstToken v)
    then .error .grammar
    else .ok (.cseq (parseNumeric maxInteger (firstToken v)) (afterFirstToken v))
  | .CallID => if v.isEmpty || hasSpace v then .error .grammar else .ok (.callId v)
  | .ContentLength | .MaxForwards | .Expires | .RetryAfter =>
    .ok (.numeric (parseNumeric k.normalMax v))
  | .ContentType | .Accept | .Warning => .ok (.text v)
  | .Extension => .ok (.extension v)

/-- Modelled from the spec: the parsed header type is not among the sources.  A parsed
header: its kind, the name it is written with, its typed value. -/
structure TypedHeader where
  kind : HeaderKind
  name : Text
  value : HeaderValue
  deriving DecidableEq, Repr

/-- The header line without its terminator: `name: value`. -/
def TypedHeader.line (h : TypedHeader) : Text :=
  h.name ++ ':' :: ' ' :: h.value.encode

/-- Modelled from the spec: `String` of a parsed header is not among the sources.  Spec 4.2,
`serialize(TypedHeader) -> canonicalWireForm`: the header line and its terminator. -/
def TypedHeader.String (h : TypedHeader) : Text :=
  h.line ++ CRLF

/-! ## Package parser: lexer (spec 4.1) -/

/-- Modelled from the spec: the lexer types are not among the sources.  One
"(header-name, header-value, raw-span)" tuple of spec 4.1; the span is the unfolded
header line. -/
structure RawHeader where
  name : Text
  value : Text
  span : Text
  deriving DecidableEq, Repr

/-- Modelled from the spec: the output of the lexer (spec 4.1): start-line, header
tuples in order, "the offset where the body begins". -/
structure Lexed where
  startLine : Text
  headers : List RawHeader
  bodyOffset : Nat
  deriving DecidableEq, Repr

/-- Removes the carriage return that ends a line. -/
def stripCR (line : Text) : Text :=
  match line.reverse with
  | [] => []
  | c :: r => if c = CR then r.reverse else line

/-- Modelled from the spec: the line splitter is not among the sources.  The lines up to
the blank-line separator, without their terminators, and the bytes after the separator;
`cur` holds the bytes of the line being read, last first. -/
def cutHead : Text → Text → List Text × Text
  | [], cur => (if cur.isEmpty then [] else [stripCR cur.reverse], [])
  | c :: cs, cur =>
    if c = LF then
      if (stripCR cur.reverse).isEmpty then ([], cs)
      else (stripCR cur.reverse :: (cutHead cs []).1, (cutHead cs []).2)
    else cutHead cs (c :: cur)

/-- A continuation line starts with a space or a tab. -/
def isContinuation (l : Text) : Bool :=
  match l with
  | [] => false
  | c :: _ => c = ' ' || c = HT

/-- Modelled from the spec: line folding.  "A continuation line starting with a space or
tab is absorbed into the previous header, with all folding whitespace collapsed to a
single space"; `cur` is the header being collected.  A continuation with no header in
front of it cannot be framed. -/
def logicalLines : Option Text → List Text → Except ParseError (List Text)
  | none, [] => .ok []
  | some cur, [] => .ok [cur]
  | cur, l :: ls =>
    if isContinuation l then
      match cur with
      | none => .error .lexical
      | some c => logicalLines (some (trimRight c ++ ' ' :: trimLeft l)) ls
    else
      match cur with
      | none => logicalLines (some l) ls
      | some c =>
        match logicalLines (some l) ls with
        | .error e => .error e
        | .ok r => .ok (c :: r)

/-- Modelled from the spec: name and value are "separated by the first unescaped colon";
a header line without one is the lexical error of spec 7. -/
def splitHeaderLine (line : Text) : Except ParseError RawHeader :=
  match cutTop false ':' Scan.start line with
  | none => .error .lexical
  | some (n, v) =>
    if (TrimSpace n).isEmpty then .error .lexical
    else .ok { name := TrimSpace n, value := TrimSpace v, span := line }

/-- Splits every header line in order; the first lexical error ends it. -/
def lexHeaders : List Text → Except ParseError (List RawHeader)
  | [] => .ok []
  | l :: ls =>
    match splitHeaderLine l with
    | .error e => .error e
    | .ok r =>
      match lexHeaders ls with
      | .error e => .error e
      | .ok rs => .ok (r :: rs)

/-- Modelled from the spec: the Lexer/Tokenizer (spec 4.1) is not among the sources.
Start-line, header tuples and the offset where the body begins. -/
def lex (raw : Text) : Except ParseError Lexed :=
  match cutHead raw [] with
  | ([], _) => .error .lexical
  | (start :: ls, body) =>
    match logicalLines none ls with
    | .error e => .error e
    | .ok ll =>
      match lexHeaders ll with
      | .error e => .error e
      | .ok rs => .ok { startLine := start, headers := rs, bodyOffset := raw.length - body.length }

/-! ## Package parser: single headers (the interface of Torture5_test.go) -/

/-- Modelled from the spec: the header parser type is not among the sources.  What
`CreateParser` returns: the header kind it was chosen for, the name the header is
written with, and the value still to parse. -/
structure HeaderParser where
  kind : HeaderKind
  name : Text
  value : Text
  deriving DecidableEq, Repr

/-- The parser for a header the lexer has cut: dispatch "by canonical header name". -/
def HeaderParser.of (r : RawHeader) : HeaderParser :=
  { kind := classify r.name, name := (classify r.name).wireName r.name, value := r.value }

/-- Modelled from the spec: `CreateParser` is not among the sources.  It takes a header
line, cuts name from value as the lexer does and picks the parser of the header kind. -/
def CreateParser (line : Text) : Except ParseError HeaderParser :=
  match (cutHead line []).1 with
  | [] => .error .lexical
  | l :: _ =>
    match splitHeaderLine l with
    | .error e => .error e
    | .ok r => .ok (HeaderParser.of r)

/-- Modelled from the spec: `Parse` of a header parser is not among the sources.
Spec 4.2: `parse(rawValue) -> (TypedHeader, error)`. -/
def HeaderParser.Parse (hp : HeaderParser) : Except ParseError TypedHeader :=
  match parseValue hp.kind hp.value with
  | .error e => .error e
  | .ok v => .ok { kind := hp.kind, name := hp.name, value := v }

/-- Modelled from the spec: what the message parser does with one header.  Spec 7: a
grammar error is "non-fatal by default - the header is retained in an unparsed/opaque
form with the original text"; spec 4.2: a version string outside the pattern is a fatal
parse failure of the message. -/
def parseTolerant (r : RawHeader) : Except ParseError TypedHeader :=
  match (HeaderParser.of r).Parse with
  | .ok h => .ok h
  | .error .version => .error .version
  | .error _ =>
    .ok { kind := classify r.name, name := (classify r.name).wireName r.name,
          value := .unparsed r.value }

/-- Parses every header of a message in order; only a fatal error ends it. -/
def parseHeaders : List RawHeader → Except ParseError (List TypedHeader)
  | [] => .ok []
  | r :: rs =>
    match parseTolerant r with
    | .error e => .error e
    | .ok h =>
      match parseHeaders rs with
      | .error e => .error e
      | .ok hs => .ok (h :: hs)

/-! ## Package parser: message assembler (spec 4.3) -/

/-- Modelled from the spec: the start-line type is not among the sources.  Spec 3 and
4.3: a request line (method, request-URI, version) or a status line (version, status
code, reason phrase). -/
inductive StartLine where
  | request : Text → Text → Text → StartLine
  | response : Text → NumericValue → Text → StartLine
  deriving DecidableEq, Repr

/-- Modelled from the spec: start-line classification "by pattern" (spec 4.3).  A line
whose first token is a SIP-Version is `SIP-Version SP Status-Code SP Reason-Phrase`; a
line whose last token is one is `METHOD SP Request-URI SP SIP-Version`; any other line
is the fatal start-line error.  Surplus white space between the parts is dropped; the
status code is a numeric field. -/
def parseStartLine (line : Text) : Except ParseError StartLine :=
  if isVersion (firstToken (TrimSpace line)) then
    if (firstToken (afterFirstToken (TrimSpace line))).isEmpty then .error .startLine
    else
      .ok (.response (firstToken (TrimSpace line))
        (parseNumeric maxStatus (firstToken (afterFirstToken (TrimSpace line))))
        (afterFirstToken (afterFirstToken (TrimSpace line))))
  else if (firstToken (TrimSpace line)).isEmpty
      || (beforeLastToken (afterFirstToken (TrimSpace line))).isEmpty
      || !isVersion (lastToken (afterFirstToken (TrimSpace line))) then .error .startLine
  else
    .ok (.request (firstToken (TrimSpace line))
      (beforeLastToken (afterFirstToken (TrimSpace line)))
      (lastToken (afterFirstToken (TrimSpace line))))

/-- Wire form of a start-line, without its terminator. -/
def StartLine.encode : StartLine → Text
  | .request method uri version => method ++ ' ' :: (uri ++ ' ' :: version)
  | .response version status reason => version ++ ' ' :: (status.encode ++ ' ' :: reason)

/-- Modelled from the spec: the message type is not among the sources.  The Message of
spec 3.  `headers` holds every header but Content-Length, in the order of the input;
`contentLength` holds what the input declared, if it declared any; `lengthAt` is the
number of headers written in front of the Content-Length line. -/
structure Message where
  startLine : StartLine
  headers : List TypedHeader
  contentLength : Option NumericValue
  lengthAt : Nat
  body : Text
  deriving DecidableEq, Repr

/-- The value of the first Content-Length header of a header list. -/
def declaredLength : List TypedHeader → Option NumericValue
  | [] => none
  | h :: hs =>
    match h.kind, h.value with
    | .ContentLength, .numeric n => some n
    | _, _ => declaredLength hs

/-- Whether a header is not a Content-Length header. -/
def notContentLength (h : TypedHeader) : Bool :=
  decide (h.kind ≠ HeaderKind.ContentLength)

/-- Modelled from the spec: the assembler is not among the sources.  The spec is silent
on the method of a CSeq header; the golden forms torture2_o[16] and torture2_o[17] of
Torture2_test.go show it: the CSeq header of a request carries the method of the request
line, and the sequence number stays. -/
def alignCSeq (sl : StartLine) (h : TypedHeader) : TypedHeader :=
  match sl, h.value with
  | .request method _ _, .cseq n _ => { h with value := .cseq n method }
  | _, _ => h

/-- Modelled from the spec: the place of the Content-Length line among the header lines.
The spec names none; the golden forms of Torture2_test.go do.  In 17 of the 19 fixtures
Content-Length is the last header of the input and of the golden form.  torture2_o[0],
a message with a body, has the line last, behind the Content-Type that followed it in
the input: it is written right in front of the body it measures.  torture2_o[18], a
message without a body, has it where the input had it, in front of Contact.  The result
is the number of other headers written in front of the line. -/
def lengthPlace (headerList : List TypedHeader) (body : Text) : Nat :=
  if body.isEmpty then (headerList.takeWhile notContentLength).length
  else (headerList.filter notContentLength).length

/-- Modelled from the spec: the Message Assembler (spec 4.3) is not among the sources.
`assemble(startLine, headerList, bodyBytes) -> (Message, error)`.  Body length policy:
"if Content-Length is present and parses to a valid non-negative integer, exactly that
many bytes are taken as body; if fewer bytes are available, assembly fails with an
incomplete-message error; if Content-Length is absent, all remaining bytes are taken as
body".  A Content-Length that is not such an integer is retained (spec 7) and delimits
nothing. -/
def assemble (startLine : Text) (headerList : List TypedHeader) (bodyBytes : Text) :
    Except ParseError Message :=
  match parseStartLine startLine with
  | .error e => .error e
  | .ok sl =>
    match declaredLength headerList with
    | some (.valid n) =>
      if bodyBytes.length < n then .error .incomplete
      else
        .ok { startLine := sl, headers := (headerList.filter notContentLength).map (alignCSeq sl),
              contentLength := some (.valid n),
              lengthAt := lengthPlace headerList (bodyBytes.take n), body := bodyBytes.take n }
    | other =>
      .ok { startLine := sl, headers := (headerList.filter notContentLength).map (alignCSeq sl),
            contentLength := other,
            lengthAt := lengthPlace headerList bodyBytes, body := bodyBytes }

/-- Modelled from the spec: the Content-Length line of a serialized message.  Spec 4.3:
serialization "must recompute Content-Length from the actual body length rather than
trust a possibly-incorrect input value"; spec 7: an out-of-range value is "preserved as
the literal text", the serialized form must "still reflect the original (possibly
nonsensical) value".  No line is written for a message that declared none. -/
def Message.contentLengthLine (m : Message) : List Text :=
  match m.contentLength with
  | none => []
  | some (.valid _) => ["Content-Length: ".toList ++ decimal m.body.length]
  | some (.invalid t) => ["Content-Length: ".toList ++ t]

/-- Modelled from the spec: the serializer is not among the sources.  The header lines
of a serialized message: the headers in input order (spec 4.3, "must reproduce the
original header order"), with the Content-Length line at the place the assembler chose
for it. -/
def Message.headerLines (m : Message) : List Text :=
  (m.headers.take m.lengthAt).map TypedHeader.line ++ m.contentLengthLine ++
    (m.headers.drop m.lengthAt).map TypedHeader.line

/-- Joins lines, each followed by its terminator. -/
def joinLines : List Text → Text
  | [] => []
  | l :: ls => l ++ CRLF ++ joinLines ls

/-- Modelled from the spec: `String` of a message is not among the sources.  Start-line,
header lines, the blank-line separator, the body. -/
def Message.String (m : Message) : Text :=
  m.startLine.encode ++ CRLF ++ joinLines m.headerLines ++ CRLF ++ m.body

/-- Modelled from the spec: `ParseSIPMessage` is not among the sources.  The data flow of
spec 2: Lexer, Header Parsers, Message Assembler. -/
def ParseSIPMessage (raw : Text) : Except ParseError Message :=
  match lex raw with
  | .error e => .error e
  | .ok lx =>
    match parseHeaders lx.headers with
    | .error e => .error e
    | .ok hs => assemble lx.startLine hs (raw.drop lx.bodyOffset)

/-! ## Package parser: the conformance corpus -/

/-- The inputs `torture2_i` of Torture2_test.go, entry by entry. -/
def torture2_i : List String :=
  [
    "INVITE sip:user@example.com SIP/2.0\r\n" ++
      "To: sip:j.user@example.com\r\n" ++
      "From: sip:caller@example.net;tag=134161461246\r\n" ++
      "Max-Forwards: 7\r\n" ++
      "Call-ID: badinv01.0ha0isndaksdjasdf3234nas\r\n" ++
      "CSeq: 8 INVITE\r\n" ++
      "Via: SIP/2.0/UDP 192.0.2.15;;,;,,\r\n" ++
      "Contact: \"Joe\" <sip:joe@example.org>;;;;\r\n" ++
      "Content-Length: 152\r\n" ++
      "Content-Type: application/sdp\r\n" ++
      "\r\n" ++
      "v=0\r\n" ++
      "o=mhandley 29739 7272939 IN IP4 192.0.2.15\r\n" ++
      "s=-\r\n" ++
      "c=IN IP4 192.0.2.15\r\n" ++
      "t=0 0\r\n" ++
      "m=audio 49217 RTP/AVP 0 12\r\n" ++
      "m=video 3227 RTP/AVP 31\r\n" ++
      "a=rtpmap:31 LPC\r\n",
    "INVITE sip:user@example.com SIP/2.0\r\n" ++
      "Max-Forwards: 80\r\n" ++
      "To: sip:j.user@example.com\r\n" ++
      "From: sip:caller@example.net;tag=93942939o2\r\n" ++
      "Contact: <sip:caller@hungry.example.net>\r\n" ++
      "Call-ID: clerr.0ha0isndaksdjweiafasdk3\r\n" ++
      "CSeq: 8 INVITE\r\n" ++
      "Via: SIP/2.0/UDP host5.example.com;branch=z9hG4bK-39234-23523\r\n" ++
      "Content-Type: application/sdp\r\n" ++
      "Content-Length: 9999\r\n" ++
      "\r\n" ++
      "v=0\r\n" ++
      "o=mhandley 29739 7272939 IN IP4 192.0.2.155\r\n" ++
      "s=-\r\n" ++
      "c=IN IP4 192.0.2.155\r\n" ++
      "t=0 0\r\n" ++
      "m=audio 49217 RTP/AVP 0 12\r\n" ++
      "m=video 3227 RTP/AVP 31\r\n" ++
      "a=rtpmap:31 LPC\r\n",
    "INVITE sip:user@example.com SIP/2.0\r\n" ++
      "Max-Forwards: 254\r\n" ++
      "To: sip:j.user@example.com\r\n" ++
      "From: sip:caller@example.net;tag=32394234\r\n" ++
      "Call-ID: ncl.0ha0isndaksdj2193423r542w35\r\n" ++
      "CSeq: 0 INVITE\r\n" ++
      "Via: SIP/2.0/UDP 192.0.2.53;branch=z9hG4bKkdjuw\r\n" ++
      "Contact: <sip:caller@example53.example.net>\r\n" ++
      "Content-Type: application/sdp\r\n" ++
      "Content-Length: -999\r\n" ++
      "\r\n" ++
      "v=0\r\n" ++
      "o=mhandley 29739 7272939 IN IP4 192.0.2.53\r\n" ++
      "s=-\r\n" ++
      "c=IN IP4 192.0.2.53\r\n" ++
      "t=0 0\r\n" ++
      "m=audio 49217 RTP/AVP 0 12\r\n" ++
      "m=video 3227 RTP/AVP 31\r\n" ++
      "a=rtpmap:31 LPC\r\n",
    "REGISTER sip:example.com SIP/2.0\r\n" ++
      "Via: SIP/2.0/TCP host129.example.com;branch=z9hG4bK342sdfoi3\r\n" ++
      "To: <sip:user@example.com>\r\n" ++
      "From: <sip:user@example.com>;tag=239232jh3\r\n" ++
      "CSeq: 36893488147419103232 REGISTER\r\n" ++
      "Call-ID: scalar02.23o0pd9vanlq3wnrlnewofjas9ui32\r\n" ++
      "Max-Forwards: 300\r\n" ++
      "Expires: 1<repeat count=100>0</repeat>\r\n" ++
      "Contact: <sip:user@host129.example.com>\r\n" ++
      "  ;expires=280297596632815\r\n" ++
      "Content-Length: 0\r\n" ++
      "\r\n",
    "SIP/2.0 503 Service Unavailable\r\n" ++
      "Via: SIP/2.0/TCP host129.example.com;branch=z9hG4bKzzxdiwo34sw;received=192.0.2.129\r\n" ++
      "To: <sip:user@example.com>\r\n" ++
      "From: <sip:other@example.net>;tag=2easdjfejw\r\n" ++
      "CSeq: 9292394834772304023312 OPTIONS\r\n" ++
      "Call-ID: scalarlg.noase0of0234hn2qofoaf0232aewf2394r\r\n" ++
      "Retry-After: 949302838503028349304023988\r\n" ++
      "Warning: 1812 overture \"In Progress\"\r\n" ++
      "Content-Length: 0\r\n" ++
      "\r\n",
    "INVITE sip:user@example.com SIP/2.0\r\n" ++
      "To: \"Mr. J. User <sip:j.user@example.com>\r\n" ++
      "From: sip:caller@example.net;tag=93334\r\n" ++
      "Max-Forwards: 10\r\n" ++
      "Call-ID: quotbal.aksdj\r\n" ++
      "Contact: <sip:caller@host59.example.net>\r\n" ++
      "CSeq: 8 INVITE\r\n" ++
      "Via: SIP/2.0/UDP 192.0.2.59:5050;branch=z9hG4bKkdjuw39234\r\n" ++
      "Content-Type: application/sdp\r\n" ++
      "Content-Length: 152\r\n" ++
      "\r\n" ++
      "v=0\r\n" ++
      "o=mhandley 29739 7272939 IN IP4 192.0.2.15\r\n" ++
      "s=-\r\n" ++
      "c=IN IP4 192.0.2.15\r\n" ++
      "t=0 0\r\n" ++
      "m=audio 49217 RTP/AVP 0 12\r\n" ++
      "m=video 3227 RTP/AVP 31\r\n" ++
      "a=rtpmap:31 LPC\r\n",
    "INVITE <sip:user@example.com> SIP/2.0\r\n" ++
      "To: sip:user@example.com\r\n" ++
      "From: sip:caller@example.net;tag=39291\r\n" ++
      "Max-Forwards: 23\r\n" ++
      "Call-ID: ltgtruri.1@192.0.2.5\r\n" ++
      "CSeq: 1 INVITE\r\n" ++
      "Via: SIP/2.0/UDP 192.0.2.5\r\n" ++
      "Contact: <sip:caller@host5.example.net>\r\n" ++
      "Content-Type: application/sdp\r\n" ++
      "Content-Length: 159\r\n" ++
      "\r\n" ++
      "v=0\r\n" ++
      "o=mhandley 29739 7272939 IN IP4 192.0.2.5\r\n" ++
      "s=-\r\n" ++
      "c=IN IP4 192.0.2.5\r\n" ++
      "t=3149328700 0\r\n" ++
      "m=audio 49217 RTP/AVP 0 12\r\n" ++
      "m=video 3227 RTP/AVP 31\r\n" ++
      "a=rtpmap:31 LPC\r\n",
    "INVITE sip:user@example.com; lr SIP/2.0\r\n" ++
      "To: sip:user@example.com;tag=3xfe-9921883-z9f\r\n" ++
      "From: sip:caller@example.net;tag=231413434\r\n" ++
      "Max-Forwards: 5\r\n" ++
      "Call-ID: lwsruri.asdfasdoeoi2323-asdfwrn23-asd834rk423\r\n" ++
      "CSeq: 2130706432 INVITE\r\n" ++
      "Via: SIP/2.0/UDP 192.0.2.1:5060;branch=z9hG4bKkdjuw2395\r\n" ++
      "Contact: <sip:caller@host1.example.net>\r\n" ++
      "Content-Type: application/sdp\r\n" ++
      "Content-Length: 159\r\n" ++
      "\r\n" ++
      "v=0\r\n" ++
      "o=mhandley 29739 7272939 IN IP4 192.0.2.1\r\n" ++
      "s=-\r\n" ++
      "c=IN IP4 192.0.2.1\r\n" ++
      "t=3149328700 0\r\n" ++
      "m=audio 49217 RTP/AVP 0 12\r\n" ++
      "m=video 3227 RTP/AVP 31\r\n" ++
      "a=rtpmap:31 LPC\r\n",
    "INVITE  sip:user@example.com  SIP/2.0\r\n" ++
      "Max-Forwards: 8\r\n" ++
      "To: sip:user@example.com\r\n" ++
      "From: sip:caller@example.net;tag=8814\r\n" ++
      "Call-ID: lwsstart.dfknq234oi243099adsdfnawe3@example.com\r\n" ++
      "CSeq: 1893884 INVITE\r\n" ++
      "Via: SIP/2.0/UDP host1.example.com;branch=z9hG4bKkdjuw3923\r\n" ++
      "Contact: <sip:caller@host1.example.net>\r\n" ++
      "Content-Type: application/sdp\r\n" ++
      "Content-Length: 150\r\n" ++
      "\r\n" ++
      "v=0\r\n" ++
      "o=mhandley 29739 7272939 IN IP4 192.0.2.1\r\n" ++
      "s=-\r\n" ++
      "c=IN IP4 192.0.2.1\r\n" ++
      "t=0 0\r\n" ++
      "m=audio 49217 RTP/AVP 0 12\r\n" ++
      "m=video 3227 RTP/AVP 31\r\n" ++
      "a=rtpmap:31 LPC\r\n",
    "OPTIONS sip:remote-target@example.com SIP/2.0\x20\x20\r\n" ++
      "Via: SIP/2.0/TCP host1.example.com;branch=z9hG4bK299342093\r\n" ++
      "To: <sip:remote-target@example.com>\r\n" ++
      "From: <sip:local-resource@example.com>;tag=329429089\r\n" ++
      "Call-ID: trws.oicu34958239neffasdhr2345r\r\n" ++
      "Accept: application/sdp\r\n" ++
      "CSeq: 238923 OPTIONS\r\n" ++
      "Max-Forwards: 70\r\n" ++
      "Content-Length: 0\r\n" ++
      "\r\n",
    "INVITE sip:user@example.com?Route=%3Csip:example.com%3E SIP/2.0\r\n" ++
      "To: sip:user@example.com\r\n" ++
      "From: sip:caller@example.net;tag=341518\r\n" ++
      "Max-Forwards: 7\r\n" ++
      "Contact: <sip:caller@host39923.example.net>\r\n" ++
      "Call-ID: escruri.23940-asdfhj-aje3br-234q098w-fawerh2q-h4n5\r\n" ++
      "CSeq: 149209342 INVITE\r\n" ++
      "Via: SIP/2.0/UDP host-of-the-hour.example.com;branch=z9hG4bKkdjuw\r\n" ++
      "Content-Type: application/sdp\r\n" ++
      "Content-Length: 150\r\n" ++
      "\r\n" ++
      "v=0\r\n" ++
      "o=mhandley 29739 7272939 IN IP4 192.0.2.1\r\n" ++
      "s=-\r\n" ++
      "c=IN IP4 192.0.2.1\r\n" ++
      "t=0 0\r\n" ++
      "m=audio 49217 RTP/AVP 0 12\r\n" ++
      "m=video 3227 RTP/AVP 31\r\n" ++
      "a=rtpmap:31 LPC\r\n",
    "INVITE sip:user@example.com SIP/2.0\r\n" ++
      "To: sip:user@example.com\r\n" ++
      "From: sip:caller@example.net;tag=2234923\r\n" ++
      "Max-Forwards: 70\r\n" ++
      "Call-ID: baddate.239423mnsadf3j23lj42--sedfnm234\r\n" ++
      "CSeq: 1392934 INVITE\r\n" ++
      "Via: SIP/2.0/UDP host.example.com;branch=z9hG4bKkdjuw\r\n" ++
      "Date: Fri, 01 Jan 2010 16:00:00 EST\r\n" ++
      "Contact: <sip:caller@host5.example.net>\r\n" ++
      "Content-Type: application/sdp\r\n" ++
      "Content-Length: 150\r\n" ++
      "\r\n" ++
      "v=0\r\n" ++
      "o=mhandley 29739 7272939 IN IP4 192.0.2.5\r\n" ++
      "s=-\r\n" ++
      "c=IN IP4 192.0.2.5\r\n" ++
      "t=0 0\r\n" ++
      "m=audio 49217 RTP/AVP 0 12\r\n" ++
      "m=video 3227 RTP/AVP 31\r\n" ++
      "a=rtpmap:31 LPC\r\n",
    "REGISTER sip:example.com SIP/2.0\r\n" ++
      "To: sip:user@example.com\r\n" ++
      "From: sip:user@example.com;tag=998332\r\n" ++
      "Max-Forwards: 70\r\n" ++
      "Call-ID: regbadct.k345asrl3fdbv@10.0.0.1\r\n" ++
      "CSeq: 1 REGISTER\r\n" ++
      "Via: SIP/2.0/UDP 135.180.130.133:5060;branch=z9hG4bKkdjuw\r\n" ++
      "Contact: sip:user@example.com?Route=%3Csip:sip.example.com%3E\r\n" ++
      "l: 0\r\n" ++
      "\r\n",
    "OPTIONS sip:user@example.org SIP/2.0\r\n" ++
      "Via: SIP/2.0/UDP host4.example.com:5060;branch=z9hG4bKkdju43234\r\n" ++
      "Max-Forwards: 70\r\n" ++
      "From: \"Bell, Alexander\" <sip:a.g.bell@example.com>;tag=433423\r\n" ++
      "To: \"Watson, Thomas\" < sip:t.watson@example.org >\r\n" ++
      "Call-ID: badaspec.sdf0234n2nds0a099u23h3hnnw009cdkne3\r\n" ++
      "Accept: application/sdp\r\n" ++
      "CSeq: 3923239 OPTIONS\r\n" ++
      "l: 0\r\n" ++
      "\r\n",
    "OPTIONS sip:t.watson@example.org SIP/2.0\r\n" ++
      "Via:     SIP/2.0/UDP c.example.com:5060;branch=z9hG4bKkdjuw\r\n" ++
      "Max-Forwards:      70\r\n" ++
      "From:    Bell, Alexander <sip:a.g.bell@example.com>;tag=43\r\n" ++
      "To:      Watson, Thomas <sip:t.watson@example.org>\r\n" ++
      "Call-ID: baddn.31415@c.example.com\r\n" ++
      "Accept: application/sdp\r\n" ++
      "CSeq:    3923239 OPTIONS\r\n" ++
      "l: 0\r\n" ++
      "\r\n",
    "OPTIONS sip:t.watson@example.org SIP/7.0\r\n" ++
      "Via:     SIP/7.0/UDP c.example.com;branch=z9hG4bKkdjuw\r\n" ++
      "Max-Forwards:     70\r\n" ++
      "From:    A. Bell <sip:a.g.bell@example.com>;tag=qweoiqpe\r\n" ++
      "To:      T. Watson <sip:t.watson@example.org>\r\n" ++
      "Call-ID: badvers.31417@c.example.com\r\n" ++
      "CSeq:    1 OPTIONS\r\n" ++
      "l: 0\r\n" ++
      "\r\n",
    "OPTIONS sip:user@example.com SIP/2.0\r\n" ++
      "To: sip:j.user@example.com\r\n" ++
      "From: sip:caller@example.net;tag=34525\r\n" ++
      "Max-Forwards: 6\r\n" ++
      "Call-ID: mismatch01.dj0234sxdfl3\r\n" ++
      "CSeq: 8 INVITE\r\n" ++
      "Via: SIP/2.0/UDP host.example.com;branch=z9hG4bKkdjuw\r\n" ++
      "l: 0\r\n" ++
      "\r\n",
    "NEWMETHOD sip:user@example.com SIP/2.0\r\n" ++
      "To: sip:j.user@example.com\r\n" ++
      "From: sip:caller@example.net;tag=34525\r\n" ++
      "Max-Forwards: 6\r\n" ++
      "Call-ID: mismatch02.dj0234sxdfl3\r\n" ++
      "CSeq: 8 INVITE\r\n" ++
      "Contact: <sip:caller@host.example.net>\r\n" ++
      "Via: SIP/2.0/UDP host.example.net;branch=z9hG4bKkdjuw\r\n" ++
      "Content-Type: application/sdp\r\n" ++
      "l: 138\r\n" ++
      "\r\n" ++
      "v=0\r\n" ++
      "o=mhandley 29739 7272939 IN IP4 192.0.2.1\r\n" ++
      "c=IN IP4 192.0.2.1\r\n" ++
      "m=audio 49217 RTP/AVP 0 12\r\n" ++
      "m=video 3227 RTP/AVP 31\r\n" ++
      "a=rtpmap:31 LPC\r\n",
    "SIP/2.0 4294967301 better not break the receiver\r\n" ++
      "Via: SIP/2.0/UDP 192.0.2.105;branch=z9hG4bK2398ndaoe\r\n" ++
      "Call-ID: bigcode.asdof3uj203asdnf3429uasdhfas3ehjasdfas9i\r\n" ++
      "CSeq: 353494 INVITE\r\n" ++
      "From: <sip:user@example.com>;tag=39ansfi3\r\n" ++
      "To: <sip:user@example.edu>;tag=902jndnke3\r\n" ++
      "Content-Length: 0\r\n" ++
      "Contact: <sip:user@host105.example.com>\r\n" ++
      "\r\n"
  ]

/-- The golden forms `torture2_o` of Torture2_test.go, entry by entry. -/
def torture2_o : List String :=
  [
    "INVITE sip:user@example.com SIP/2.0\r\n" ++
      "To: <sip:j.user@example.com>\r\n" ++
      "From: <sip:caller@example.net>;tag=134161461246\r\n" ++
      "Max-Forwards: 7\r\n" ++
      "Call-ID: badinv01.0ha0isndaksdjasdf3234nas\r\n" ++
      "CSeq: 8 INVITE\r\n" ++
      "Via: SIP/2.0/UDP 192.0.2.15;;,;,,\r\n" ++
      "Contact: \"Joe\" <sip:joe@example.org>;;;;\r\n" ++
      "Content-Type: application/sdp\r\n" ++
      "Content-Length: 152\r\n" ++
      "\r\n" ++
      "v=0\r\n" ++
      "o=mhandley 29739 7272939 IN IP4 192.0.2.15\r\n" ++
      "s=-\r\n" ++
      "c=IN IP4 192.0.2.15\r\n" ++
      "t=0 0\r\n" ++
      "m=audio 49217 RTP/AVP 0 12\r\n" ++
      "m=video 3227 RTP/AVP 31\r\n" ++
      "a=rtpmap:31 LPC\r\n",
    "INVITE sip:user@example.com SIP/2.0\r\n" ++
      "Max-Forwards: 80\r\n" ++
      "To: <sip:j.user@example.com>\r\n" ++
      "From: <sip:caller@example.net>;tag=93942939o2\r\n" ++
      "Contact: <sip:caller@hungry.example.net>\r\n" ++
      "Call-ID: clerr.0ha0isndaksdjweiafasdk3\r\n" ++
      "CSeq: 8 INVITE\r\n" ++
      "Via: SIP/2.0/UDP host5.example.com;branch=z9hG4bK-39234-23523\r\n" ++
      "Content-Type: application/sdp\r\n" ++
      "Content-Length: 9999\r\n" ++
      "\r\n" ++
      "v=0\r\n" ++
      "o=mhandley 29739 7272939 IN IP4 192.0.2.155\r\n" ++
      "s=-\r\n" ++
      "c=IN IP4 192.0.2.155\r\n" ++
      "t=0 0\r\n" ++
      "m=audio 49217 RTP/AVP 0 12\r\n" ++
      "m=video 3227 RTP/AVP 31\r\n" ++
      "a=rtpmap:31 LPC\r\n",
    "INVITE sip:user@example.com SIP/2.0\r\n" ++
      "Max-Forwards: 254\r\n" ++
      "To: <sip:j.user@example.com>\r\n" ++
      "From: <sip:caller@example.net>;tag=32394234\r\n" ++
      "Call-ID: ncl.0ha0isndaksdj2193423r542w35\r\n" ++
      "CSeq: 0 INVITE\r\n" ++
      "Via: SIP/2.0/UDP 192.0.2.53;branch=z9hG4bKkdjuw\r\n" ++
      "Contact: <sip:caller@example53.example.net>\r\n" ++
      "Content-Type: application/sdp\r\n" ++
      "Content-Length: -999\r\n" ++
      "\r\n" ++
      "v=0\r\n" ++
      "o=mhandley 29739 7272939 IN IP4 192.0.2.53\r\n" ++
      "s=-\r\n" ++
      "c=IN IP4 192.0.2.53\r\n" ++
      "t=0 0\r\n" ++
      "m=audio 49217 RTP/AVP 0 12\r\n" ++
      "m=video 3227 RTP/AVP 31\r\n" ++
      "a=rtpmap:31 LPC\r\n",
    "REGISTER sip:example.com SIP/2.0\r\n" ++
      "Via: SIP/2.0/TCP host129.example.com;branch=z9hG4bK342sdfoi3\r\n" ++
      "To: <sip:user@example.com>\r\n" ++
      "From: <sip:user@example.com>;tag=239232jh3\r\n" ++
      "CSeq: 36893488147419103232 REGISTER\r\n" ++
      "Call-ID: scalar02.23o0pd9vanlq3wnrlnewofjas9ui32\r\n" ++
      "Max-Forwards: 300\r\n" ++
      "Expires: 10000000000000000000000000000000000000000000000000000000000000000000000000000000000000000000000000000</repeat>\r\n" ++
      "Contact: <sip:user@host129.example.com>;expires=280297596632815\r\n" ++
      "Content-Length: 0\r\n" ++
      "\r\n",
    "SIP/2.0 503 Service Unavailable\r\n" ++
      "Via: SIP/2.0/TCP host129.example.com;branch=z9hG4bKzzxdiwo34sw;received=192.0.2.129\r\n" ++
      "To: <sip:user@example.com>\r\n" ++
      "From: <sip:other@example.net>;tag=2easdjfejw\r\n" ++
      "CSeq: 9292394834772304023312 OPTIONS\r\n" ++
      "Call-ID: scalarlg.noase0of0234hn2qofoaf0232aewf2394r\r\n" ++
      "Retry-After: 949302838503028349304023988\r\n" ++
      "Warning: 1812 overture \"In Progress\"\r\n" ++
      "Content-Length: 0\r\n" ++
      "\r\n",
    "INVITE sip:user@example.com SIP/2.0\r\n" ++
      "To: \"Mr. J. User\" <sip:j.user@example.com>\r\n" ++
      "From: <sip:caller@example.net>;tag=93334\r\n" ++
      "Max-Forwards: 10\r\n" ++
      "Call-ID: quotbal.aksdj\r\n" ++
      "Contact: <sip:caller@host59.example.net>\r\n" ++
      "CSeq: 8 INVITE\r\n" ++
      "Via: SIP/2.0/UDP 192.0.2.59:5050;branch=z9hG4bKkdjuw39234\r\n" ++
      "Content-Type: application/sdp\r\n" ++
      "Content-Length: 152\r\n" ++
      "\r\n" ++
      "v=0\r\n" ++
      "o=mhandley 29739 7272939 IN IP4 192.0.2.15\r\n" ++
      "s=-\r\n" ++
      "c=IN IP4 192.0.2.15\r\n" ++
      "t=0 0\r\n" ++
      "m=audio 49217 RTP/AVP 0 12\r\n" ++
      "m=video 3227 RTP/AVP 31\r\n" ++
      "a=rtpmap:31 LPC\r\n",
    "INVITE <sip:user@example.com> SIP/2.0\r\n" ++
      "To: <sip:user@example.com>\r\n" ++
      "From: <sip:caller@example.net>;tag=39291\r\n" ++
      "Max-Forwards: 23\r\n" ++
      "Call-ID: ltgtruri.1@192.0.2.5\r\n" ++
      "CSeq: 1 INVITE\r\n" ++
      "Via: SIP/2.0/UDP 192.0.2.5\r\n" ++
      "Contact: <sip:caller@host5.example.net>\r\n" ++
      "Content-Type: application/sdp\r\n" ++
      "Content-Length: 159\r\n" ++
      "\r\n" ++
      "v=0\r\n" ++
      "o=mhandley 29739 7272939 IN IP4 192.0.2.5\r\n" ++
      "s=-\r\n" ++
      "c=IN IP4 192.0.2.5\r\n" ++
      "t=3149328700 0\r\n" ++
      "m=audio 49217 RTP/AVP 0 12\r\n" ++
      "m=video 3227 RTP/AVP 31\r\n" ++
      "a=rtpmap:31 LPC\r\n",
    "INVITE sip:user@example.com; lr SIP/2.0\r\n" ++
      "To: <sip:user@example.com>;tag=3xfe-9921883-z9f\r\n" ++
      "From: <sip:caller@example.net>;tag=231413434\r\n" ++
      "Max-Forwards: 5\r\n" ++
      "Call-ID: lwsruri.asdfasdoeoi2323-asdfwrn23-asd834rk423\r\n" ++
      "CSeq: 2130706432 INVITE\r\n" ++
      "Via: SIP/2.0/UDP 192.0.2.1:5060;branch=z9hG4bKkdjuw2395\r\n" ++
      "Contact: <sip:caller@host1.example.net>\r\n" ++
      "Content-Type: application/sdp\r\n" ++
      "Content-Length: 159\r\n" ++
      "\r\n" ++
      "v=0\r\n" ++
      "o=mhandley 29739 7272939 IN IP4 192.0.2.1\r\n" ++
      "s=-\r\n" ++
      "c=IN IP4 192.0.2.1\r\n" ++
      "t=3149328700 0\r\n" ++
      "m=audio 49217 RTP/AVP 0 12\r\n" ++
      "m=video 3227 RTP/AVP 31\r\n" ++
      "a=rtpmap:31 LPC\r\n",
    "INVITE sip:user@example.com SIP/2.0\r\n" ++
      "Max-Forwards: 8\r\n" ++
      "To: <sip:user@example.com>\r\n" ++
      "From: <sip:caller@example.net>;tag=8814\r\n" ++
      "Call-ID: lwsstart.dfknq234oi243099adsdfnawe3@example.com\r\n" ++
      "CSeq: 1893884 INVITE\r\n" ++
      "Via: SIP/2.0/UDP host1.example.com;branch=z9hG4bKkdjuw3923\r\n" ++
      "Contact: <sip:caller@host1.example.net>\r\n" ++
      "Content-Type: application/sdp\r\n" ++
      "Content-Length: 150\r\n" ++
      "\r\n" ++
      "v=0\r\n" ++
      "o=mhandley 29739 7272939 IN IP4 192.0.2.1\r\n" ++
      "s=-\r\n" ++
      "c=IN IP4 192.0.2.1\r\n" ++
      "t=0 0\r\n" ++
      "m=audio 49217 RTP/AVP 0 12\r\n" ++
      "m=video 3227 RTP/AVP 31\r\n" ++
      "a=rtpmap:31 LPC\r\n",
    "OPTIONS sip:remote-target@example.com SIP/2.0\r\n" ++
      "Via: SIP/2.0/TCP host1.example.com;branch=z9hG4bK299342093\r\n" ++
      "To: <sip:remote-target@example.com>\r\n" ++
      "From: <sip:local-resource@example.com>;tag=329429089\r\n" ++
      "Call-ID: trws.oicu34958239neffasdhr2345r\r\n" ++
      "Accept: application/sdp\r\n" ++
      "CSeq: 238923 OPTIONS\r\n" ++
      "Max-Forwards: 70\r\n" ++
      "Content-Length: 0\r\n" ++
      "\r\n",
    "INVITE sip:user@example.com?Route=%3Csip:example.com%3E SIP/2.0\r\n" ++
      "To: <sip:user@example.com>\r\n" ++
      "From: <sip:caller@example.net>;tag=341518\r\n" ++
      "Max-Forwards: 7\r\n" ++
      "Contact: <sip:caller@host39923.example.net>\r\n" ++
      "Call-ID: escruri.23940-asdfhj-aje3br-234q098w-fawerh2q-h4n5\r\n" ++
      "CSeq: 149209342 INVITE\r\n" ++
      "Via: SIP/2.0/UDP host-of-the-hour.example.com;branch=z9hG4bKkdjuw\r\n" ++
      "Content-Type: application/sdp\r\n" ++
      "Content-Length: 150\r\n" ++
      "\r\n" ++
      "v=0\r\n" ++
      "o=mhandley 29739 7272939 IN IP4 192.0.2.1\r\n" ++
      "s=-\r\n" ++
      "c=IN IP4 192.0.2.1\r\n" ++
      "t=0 0\r\n" ++
      "m=audio 49217 RTP/AVP 0 12\r\n" ++
      "m=video 3227 RTP/AVP 31\r\n" ++
      "a=rtpmap:31 LPC\r\n",
    "INVITE sip:user@example.com SIP/2.0\r\n" ++
      "To: <sip:user@example.com>\r\n" ++
      "From: <sip:caller@example.net>;tag=2234923\r\n" ++
      "Max-Forwards: 70\r\n" ++
      "Call-ID: baddate.239423mnsadf3j23lj42--sedfnm234\r\n" ++
      "CSeq: 1392934 INVITE\r\n" ++
      "Via: SIP/2.0/UDP host.example.com;branch=z9hG4bKkdjuw\r\n" ++
      "Date: Fri, 01 Jan 2010 16:00:00 EST\r\n" ++
      "Contact: <sip:caller@host5.example.net>\r\n" ++
      "Content-Type: application/sdp\r\n" ++
      "Content-Length: 150\r\n" ++
      "\r\n" ++
      "v=0\r\n" ++
      "o=mhandley 29739 7272939 IN IP4 192.0.2.5\r\n" ++
      "s=-\r\n" ++
      "c=IN IP4 192.0.2.5\r\n" ++
      "t=0 0\r\n" ++
      "m=audio 49217 RTP/AVP 0 12\r\n" ++
      "m=video 3227 RTP/AVP 31\r\n" ++
      "a=rtpmap:31 LPC\r\n",
    "REGISTER sip:example.com SIP/2.0\r\n" ++
      "To: <sip:user@example.com>\r\n" ++
      "From: <sip:user@example.com>;tag=998332\r\n" ++
      "Max-Forwards: 70\r\n" ++
      "Call-ID: regbadct.k345asrl3fdbv@10.0.0.1\r\n" ++
      "CSeq: 1 REGISTER\r\n" ++
      "Via: SIP/2.0/UDP 135.180.130.133:5060;branch=z9hG4bKkdjuw\r\n" ++
      "Contact: <sip:user@example.com?Route=%3Csip:sip.example.com%3E>\r\n" ++
      "Content-Length: 0\r\n" ++
      "\r\n",
    "OPTIONS sip:user@example.org SIP/2.0\r\n" ++
      "Via: SIP/2.0/UDP host4.example.com:5060;branch=z9hG4bKkdju43234\r\n" ++
      "Max-Forwards: 70\r\n" ++
      "From: \"Bell, Alexander\" <sip:a.g.bell@example.com>;tag=433423\r\n" ++
      "To: \"Watson, Thomas\" <sip:t.watson@example.org>\r\n" ++
      "Call-ID: badaspec.sdf0234n2nds0a099u23h3hnnw009cdkne3\r\n" ++
      "Accept: application/sdp\r\n" ++
      "CSeq: 3923239 OPTIONS\r\n" ++
      "Content-Length: 0\r\n" ++
      "\r\n",
    "OPTIONS sip:t.watson@example.org SIP/2.0\r\n" ++
      "Via: SIP/2.0/UDP c.example.com:5060;branch=z9hG4bKkdjuw\r\n" ++
      "Max-Forwards: 70\r\n" ++
      "From: \"Bell, Alexander\" <sip:a.g.bell@example.com>;tag=43\r\n" ++
      "To: \"Watson, Thomas\" <sip:t.watson@example.org>\r\n" ++
      "Call-ID: baddn.31415@c.example.com\r\n" ++
      "Accept: application/sdp\r\n" ++
      "CSeq: 3923239 OPTIONS\r\n" ++
      "Content-Length: 0\r\n" ++
      "\r\n",
    "OPTIONS sip:t.watson@example.org SIP/7.0\r\n" ++
      "Via: SIP/7.0/UDP c.example.com;branch=z9hG4bKkdjuw\r\n" ++
      "Max-Forwards: 70\r\n" ++
      "From: \"A. Bell\" <sip:a.g.bell@example.com>;tag=qweoiqpe\r\n" ++
      "To: \"T. Watson\" <sip:t.watson@example.org>\r\n" ++
      "Call-ID: badvers.31417@c.example.com\r\n" ++
      "CSeq 1 OPTIONS\r\n" ++
      "Content-Length: 0\r\n" ++
      "\r\n",
    "OPTIONS sip:user@example.com SIP/2.0\r\n" ++
      "To: <sip:j.user@example.com>\r\n" ++
      "From: <sip:caller@example.net>;tag=34525\r\n" ++
      "Max-Forwards: 6\r\n" ++
      "Call-ID: mismatch01.dj0234sxdfl3\r\n" ++
      "CSeq: 8 OPTIONS\r\n" ++
      "Via: SIP/2.0/UDP host.example.com;branch=z9hG4bKkdjuw\r\n" ++
      "Content-Length: 0\r\n" ++
      "\r\n",
    "NEWMETHOD sip:user@example.com SIP/2.0\r\n" ++
      "To: <sip:j.user@example.com>\r\n" ++
      "From: <sip:caller@example.net>;tag=34525\r\n" ++
      "Max-Forwards: 6\r\n" ++
      "Call-ID: mismatch02.dj0234sxdfl3\r\n" ++
      "CSeq: 8 NEWMETHOD\r\n" ++
      "Contact: <sip:caller@host.example.net>\r\n" ++
      "Via: SIP/2.0/UDP host.example.net;branch=z9hG4bKkdjuw\r\n" ++
      "Content-Type: application/sdp\r\n" ++
      "Content-Length: 138\r\n" ++
      "\r\n" ++
      "v=0\r\n" ++
      "o=mhandley 29739 7272939 IN IP4 192.0.2.1\r\n" ++
      "c=IN IP4 192.0.2.1\r\n" ++
      "m=audio 49217 RTP/AVP 0 12\r\n" ++
      "m=video 3227 RTP/AVP 31\r\n" ++
      "a=rtpmap:31 LPC\r\n",
    "SIP/2.0 4294967301 better not break the receiver\r\n" ++
      "Via: SIP/2.0/UDP 192.0.2.105;branch=z9hG4bK2398ndaoe\r\n" ++
      "Call-ID: bigcode.asdof3uj203asdnf3429uasdhfas3ehjasdfas9i\r\n" ++
      "CSeq: 353494 INVITE\r\n" ++
      "From: <sip:user@example.com>;tag=39ansfi3\r\n" ++
      "To: <sip:user@example.edu>;tag=902jndnke3\r\n" ++
      "Content-Length: 0\r\n" ++
      "Contact: <sip:user@host105.example.com>\r\n" ++
      "\r\n"
  ]

/-- The bytes of `torture2_i[i]`. -/
def input (i : Nat) : Text :=
  (torture2_i.getD i "").toList

/-- The bytes of `torture2_o[i]`. -/
def golden (i : Nat) : Text :=
  (torture2_o.getD i "").toList

/-! ## Package parser: the test drivers -/

/-- What one turn of a test loop does: logs a parse error, finds the serialized form
equal to the golden form, or fails the test. -/
inductive Outcome where
  | logged : ParseError → Outcome
  | pass : Outcome
  | fail : Outcome
  deriving DecidableEq, Repr

/-- One turn of the loop of `TestTorture2`: a parse error is logged; otherwise the
trimmed serialized message is compared with the trimmed golden form. -/
def torture2Turn (input golden : String) : Outcome :=
  match ParseSIPMessage input.toList with
  | .error e => .logged e
  | .ok sm => if TrimSpace sm.String = TrimSpace golden.toList then .pass else .fail

/-- Whether `sub` starts `t`. -/
def startsWith (sub : Text) (t : Text) : Bool :=
  match sub, t with
  | [], _ => true
  | _ :: _, [] => false
  | a :: as, b :: bs => a = b && startsWith as bs

/-- Go's `strings.Contains`. -/
def Contains : Text → Text → Bool
  | [], sub => sub.isEmpty
  | c :: cs, sub => startsWith sub (c :: cs) || Contains cs sub

end Parser


/-! ## Test drivers: the mismatch report -/

namespace Parser

/-- How the mismatch-report loop of `TestTorture2` and `TestTorture5` ends: the index
reaches `len(s)`, the tenth mismatch breaks it, or `d[j]` is read with `j` outside `d`
(the Go runtime panics with an index out of range). -/
inductive LoopEnd where
  | finished : LoopEnd
  | tenMismatches : LoopEnd
  | outOfRange : Nat → LoopEnd
  deriving DecidableEq, Repr

/-- A run of the mismatch-report loop: the indices `j` at which `d[j]` was read, in
order, the lines `j:s[j] vs d[j]` it logged, and how it ended. -/
structure LoopRun where
  reads : List Nat
  logged : List (Nat × Char × Char)
  ending : LoopEnd
  deriving DecidableEq, Repr

/-- The loop `for j, k := 0, 0; j < len(s); j++` of the tests, from index `j` with `k`
mismatches logged so far; the second argument is `s[j:]`, so the loop condition
`j < len(s)` holds when it is not empty and `s[j]` is its first byte.  The body reads
`d[j]`, compares it with `s[j]`, logs a mismatch and breaks at the tenth. -/
def mismatchLoop (d : Text) : Text → Nat → Nat → LoopRun
  | [], _, _ => { reads := [], logged := [], ending := .finished }
  | sj :: rest, j, k =>
    match d.get? j with
    | none => { reads := [j], logged := [], ending := .outOfRange j }
    | some dj =>
      if dj ≠ sj then
        if k + 1 = 10 then { reads := [j], logged := [(j, sj, dj)], ending := .tenMismatches }
        else
          { reads := j :: (mismatchLoop d rest (j + 1) (k + 1)).reads,
            logged := (j, sj, dj) :: (mismatchLoop d rest (j + 1) (k + 1)).logged,
            ending := (mismatchLoop d rest (j + 1) (k + 1)).ending }
      else
        { reads := j :: (mismatchLoop d rest (j + 1) k).reads,
          logged := (mismatchLoop d rest (j + 1) k).logged,
          ending := (mismatchLoop d rest (j + 1) k).ending }

/-- The mismatch report of a serialized string `d` against a golden string `s`: the
loop from `j = 0`, `k = 0`. -/
def mismatchReport (d s : Text) : LoopRun :=
  mismatchLoop d s 0 0

/-- The lines of a text, split at line feeds; `cur` holds the line being read, last
byte first. -/
def linesOf : Text → Text → List Text
  | [], cur => [cur.reverse]
  | c :: cs, cur => if c = LF then cur.reverse :: linesOf cs [] else linesOf cs (c :: cur)

/-- The Call-ID line of a message text, if it has one. -/
def callIdLine (t : Text) : Option Text :=
  (linesOf t []).find? (startsWith "Call-ID:".toList)

end Parser


end Sip


/-! # Theorems -/

set_option maxRecDepth 1000000

namespace Sip

/-! ## Events -/

theorem ResponseEvent.run_eq {ClientTransaction Response : Type}
    (e : ResponseEvent ClientTransaction Response) (ops : List ResponseEventOp) :
    e.run ops = e := by
  induction ops with
  | nil => rfl
  | cons op rest ih =>
    cases op <;> simpa [ResponseEvent.run, ResponseEventOp.apply] using ih

theorem Timeout.run_cons (t : Timeout) (op : TimeoutOp) (ops : List TimeoutOp) :
    t.run (op :: ops) = (op.apply t).run ops := rfl

theorem Timeout.run_append (t : Timeout) (xs ys : List TimeoutOp) :
    t.run (xs ++ ys) = (t.run xs).run ys := by
  simp [Timeout.run, List.foldl_append]

theorem Timeout.run_of_no_set (t : Timeout) (ops : List TimeoutOp)
    (h : ∀ op ∈ ops, op.isSet = false) : t.run ops = t := by
  induction ops with
  | nil => rfl
  | cons op rest ih =>
    have hrest : ∀ o ∈ rest, o.isSet = false := fun o ho => h o (List.mem_cons_of_mem _ ho)
    have hop : op.isSet = false := h op (List.mem_cons_self _ _)
    rw [Timeout.run_cons]
    cases op with
    | getValue => exact ih hrest
    | setValue v => simp [TimeoutOp.isSet] at hop
    | string => exact ih hrest

/-- C7: for every client transaction `t` and response `r`, the event
`NewResponseEvent(t, r)` returns `t` from `GetClientTransaction` and `r` from
`GetResponse`, and still does after any sequence of calls of the exported methods. -/
theorem responseEvent_pairing_kept {ClientTransaction Response : Type}
    (t : ClientTransaction) (r : Response) (ops : List ResponseEventOp) :
    (NewResponseEvent t r).GetClientTransaction = t ∧
    (NewResponseEvent t r).GetResponse = r ∧
    ((NewResponseEvent t r).run ops).GetClientTransaction = t ∧
    ((NewResponseEvent t r).run ops).GetResponse = r := by
  rw [ResponseEvent.run_eq]
  exact ⟨rfl, rfl, rfl, rfl⟩

/-- C8, as stated, fails: `NewTimeout(2)` is built by an exported operation and its
`GetValue()` is neither declared kind, and `SetValue(7)` reaches another such value. -/
theorem timeout_kind_not_closed :
    ¬ ((NewTimeout 2).GetValue = TIMEOUT_RETRANSMIT ∨
        (NewTimeout 2).GetValue = TIMEOUT_TRANSACTION) ∧
    ¬ (((NewTimeout TIMEOUT_RETRANSMIT).SetValue 7).GetValue = TIMEOUT_RETRANSMIT ∨
        ((NewTimeout TIMEOUT_RETRANSMIT).SetValue 7).GetValue = TIMEOUT_TRANSACTION) := by
  decide

/-- C8, amended: a Timeout built by `NewTimeout(k)` and changed only by `SetValue(v)`,
with `k` and every `v` a declared kind, has `GetValue()` equal to `TIMEOUT_RETRANSMIT`
or `TIMEOUT_TRANSACTION`; and a Timeout carries nothing but that integer: two Timeouts
with the same `GetValue()` are equal. -/
theorem timeout_kind_closed_on_declared_args (k : Int) (ops : List TimeoutOp)
    (hk : k = TIMEOUT_RETRANSMIT ∨ k = TIMEOUT_TRANSACTION)
    (hops : ∀ op ∈ ops, op.declaredArg) :
    (((NewTimeout k).run ops).GetValue = TIMEOUT_RETRANSMIT ∨
      ((NewTimeout k).run ops).GetValue = TIMEOUT_TRANSACTION) ∧
    (∀ a b : Timeout, a.GetValue = b.GetValue → a = b) := by
  refine ⟨?_, ?_⟩
  · induction ops generalizing k with
    | nil => exact hk
    | cons op rest ih =>
      have hrest : ∀ o ∈ rest, o.declaredArg := fun o ho => hops o (List.mem_cons_of_mem _ ho)
      have hop : op.declaredArg := hops op (List.mem_cons_self _ _)
      rw [Timeout.run_cons]
      cases op with
      | getValue => exact ih k hk hrest
      | setValue v => exact ih v hop hrest
      | string => exact ih k hk hrest
  · intro a b h
    cases a
    cases b
    simpa [Timeout.GetValue] using h

/-- Witness of C8 amended: a retransmit Timeout, set to the transaction kind and read. -/
theorem timeout_kind_closed_on_declared_args_witness :
    (TIMEOUT_RETRANSMIT = TIMEOUT_RETRANSMIT ∨ TIMEOUT_RETRANSMIT = TIMEOUT_TRANSACTION) ∧
    (∀ op ∈ [TimeoutOp.setValue TIMEOUT_TRANSACTION, TimeoutOp.getValue, TimeoutOp.string],
      op.declaredArg) ∧
    (((NewTimeout TIMEOUT_RETRANSMIT).run
        [TimeoutOp.setValue TIMEOUT_TRANSACTION, TimeoutOp.getValue, TimeoutOp.string]).GetValue
        = TIMEOUT_RETRANSMIT ∨
      ((NewTimeout TIMEOUT_RETRANSMIT).run
        [TimeoutOp.setValue TIMEOUT_TRANSACTION, TimeoutOp.getValue, TimeoutOp.string]).GetValue
        = TIMEOUT_TRANSACTION) :=
  have hk : TIMEOUT_RETRANSMIT = TIMEOUT_RETRANSMIT ∨ TIMEOUT_RETRANSMIT = TIMEOUT_TRANSACTION :=
    Or.inl rfl
  have hops : ∀ op ∈ [TimeoutOp.setValue TIMEOUT_TRANSACTION, TimeoutOp.getValue,
      TimeoutOp.string], op.declaredArg := by
    intro op hop
    simp only [List.mem_cons, List.mem_singleton, List.not_mem_nil, or_false] at hop
    rcases hop with rfl | rfl | rfl
    · exact Or.inr rfl
    · trivial
    · trivial
  ⟨hk, hops, (timeout_kind_closed_on_declared_args TIMEOUT_RETRANSMIT _ hk hops).1⟩

/-- C9, as stated, fails: `SetValue` is an exported operation, and after
`NewTimeout(TIMEOUT_RETRANSMIT)` and `SetValue(TIMEOUT_TRANSACTION)` the call
`GetValue()` no longer returns the value the Timeout was constructed with. -/
theorem timeout_not_immutable :
    ((NewTimeout TIMEOUT_RETRANSMIT).run [TimeoutOp.setValue TIMEOUT_TRANSACTION]).GetValue
      ≠ TIMEOUT_RETRANSMIT := by
  decide

/-- C9, amended: for every Timeout `t = NewTimeout(k)`, after a sequence of exported
operations that holds no `SetValue` (only `GetValue` and `String`), `t.GetValue()` is
still `k`; `SetValue(v)` replaces the value: after a sequence whose last `SetValue` is
`SetValue(v)`, `t.GetValue()` is `v`. -/
theorem timeout_value_after_ops (k : Int) (ops : List TimeoutOp) :
    ((∀ op ∈ ops, op.isSet = false) → ((NewTimeout k).run ops).GetValue = k) ∧
    (∀ (v : Int) (rest : List TimeoutOp), (∀ op ∈ rest, op.isSet = false) →
      ((NewTimeout k).run (ops ++ TimeoutOp.setValue v :: rest)).GetValue = v) := by
  refine ⟨?_, ?_⟩
  · intro h
    rw [Timeout.run_of_no_set _ _ h]
    rfl
  · intro v rest h
    rw [Timeout.run_append, Timeout.run_cons, Timeout.run_of_no_set _ _ h]
    rfl

/-- Witness of C9 amended: reads only, and a `SetValue(5)` followed by reads. -/
theorem timeout_value_after_ops_witness :
    ((NewTimeout 1).run [TimeoutOp.getValue, TimeoutOp.string]).GetValue = 1 ∧
    ((NewTimeout 1).run ([TimeoutOp.getValue] ++ TimeoutOp.setValue 5 :: [TimeoutOp.string])).GetValue
      = 5 :=
  ⟨(timeout_value_after_ops 1 [TimeoutOp.getValue, TimeoutOp.string]).1 (by decide),
   (timeout_value_after_ops 1 [TimeoutOp.getValue]).2 5 [TimeoutOp.string] (by decide)⟩

/-- C10: for every integer `k`, `NewTimeout(k).GetValue()` is `k`. -/
theorem newTimeout_getValue (k : Int) : (NewTimeout k).GetValue = k :=
  rfl

end Sip

namespace Sip.Parser

/-! ## Decimal numbers -/

theorem foldl_digits (t : Text) (a : Nat) :
    t.foldl (fun a c => 10 * a + (c.toNat - 48)) a = a * 10 ^ t.length + digitsValue t := by
  induction t generalizing a with
  | nil => simp [digitsValue]
  | cons c cs ih =>
    simp only [List.foldl_cons, List.length_cons, digitsValue]
    rw [ih, ih (10 * 0 + (c.toNat - 48))]
    ring

theorem digitsValue_cons (c : Char) (t : Text) :
    digitsValue (c :: t) = (c.toNat - 48) * 10 ^ t.length + digitsValue t := by
  simp only [digitsValue, List.foldl_cons]
  rw [foldl_digits]
  simp [digitsValue]

theorem digitChar_toNat (d : Nat) (h : d < 10) : (digitChar d).toNat - 48 = d := by
  interval_cases d <;> rfl

theorem digitsValue_decimalAux (fuel n : Nat) (acc : Text) (h : n < 10 ^ fuel) :
    digitsValue (decimalAux fuel n acc) = n * 10 ^ acc.length + digitsValue acc := by
  induction fuel generalizing n acc with
  | zero =>
    have : n = 0 := by simpa using h
    simp [decimalAux, this]
  | succ f ih =>
    unfold decimalAux
    split
    · next hlt => rw [digitsValue_cons, digitChar_toNat n hlt]
    · next hge =>
      have hdiv : n / 10 < 10 ^ f := by
        rw [Nat.div_lt_iff_lt_mul (by norm_num)]
        rw [pow_succ] at h
        exact h
      rw [ih _ _ hdiv, digitsValue_cons, digitChar_toNat _ (Nat.mod_lt _ (by norm_num))]
      simp only [List.length_cons]
      rw [pow_succ]
      have hn : n * 10 ^ acc.length = (10 * (n / 10) + n % 10) * 10 ^ acc.length := by
        rw [Nat.div_add_mod]
      rw [hn]
      ring

/-- The decimal text of a number denotes that number. -/
theorem digitsValue_decimal (n : Nat) : digitsValue (decimal n) = n := by
  unfold decimal
  have h : n < 10 ^ (n + 1) :=
    (Nat.lt_pow_self (by norm_num) n).trans_le (Nat.pow_le_pow_right (by norm_num) (Nat.le_succ n))
  rw [digitsValue_decimalAux _ _ _ h]
  simp [digitsValue]

/-! ## Tokens and numeric fields -/

theorem joinLines_append (a b : List Text) : joinLines (a ++ b) = joinLines a ++ joinLines b := by
  induction a with
  | nil => rfl
  | cons l ls ih => simp [joinLines, ih]

/-- What every turn of the loop of `TestTorture2` does on the modelled parser.  The input
that declares 9999 bytes in front of 154 is refused as incomplete (spec 4.3) and only
logged.  Two accepted inputs serialize to something else than their golden form: the
golden form torture2_o[3] holds an Expires value that ends in `</repeat>` and has no
`<repeat`, and torture2_o[15] holds the line `CSeq 1 OPTIONS` without a colon, which no
header line `name: value` reproduces.  The other sixteen turns pass. -/
theorem torture2_outcomes :
    List.zipWith torture2Turn torture2_i torture2_o =
      [.pass, .logged .incomplete, .pass, .fail, .pass, .pass, .pass, .pass, .pass, .pass,
       .pass, .pass, .pass, .pass, .pass, .fail, .pass, .pass, .pass] := by
  rfl

/-- C5: the INVITE request torture2_i[0], whose Via value ends in `;;,;,,` and whose
Contact value ends in `;;;;`, is parsed without error, and the serialized message holds
the lines `Via: SIP/2.0/UDP 192.0.2.15;;,;,,` and
`Contact: "Joe" <sip:joe@example.org>;;;;` with those trailing artifacts unchanged. -/
theorem trailing_separators_kept :
    ∃ sm, ParseSIPMessage (input 0) = .ok sm ∧
      "Via: SIP/2.0/UDP 192.0.2.15;;,;,,".toList ∈ sm.headerLines ∧
      "Contact: \"Joe\" <sip:joe@example.org>;;;;".toList ∈ sm.headerLines ∧
      Contains sm.String "\r\nVia: SIP/2.0/UDP 192.0.2.15;;,;,,\r\n".toList = true ∧
      Contains sm.String "\r\nContact: \"Joe\" <sip:joe@example.org>;;;;\r\n".toList = true := by
  refine ⟨_, rfl, ?_, ?_, ?_, ?_⟩
  · decide
  · decide
  · rfl
  · rfl

/-- C6: for every request whose Content-Length is a valid non-negative integer `n` and
whose available body has fewer than `n` bytes, assembly returns the incomplete-message
error, hence no Message. -/
theorem incomplete_message (startLine : Text) (headerList : List TypedHeader)
    (bodyBytes : Text) (method uri version : Text) (n : Nat)
    (hreq : parseStartLine startLine = .ok (.request method uri version))
    (hlen : declaredLength headerList = some (.valid n))
    (hshort : bodyBytes.length < n) :
    assemble startLine headerList bodyBytes = .error .incomplete := by
  unfold assemble
  simp only [hreq, hlen]
  simp [hshort]

/-- Witness of C6: torture2_i[1] declares `Content-Length: 9999` in front of a body of
154 bytes; its assembly, and so `ParseSIPMessage`, returns the incomplete-message error. -/
theorem incomplete_message_witness :
    ∃ lx hs, lex (input 1) = .ok lx ∧ parseHeaders lx.headers = .ok hs ∧
      parseStartLine lx.startLine =
        .ok (.request "INVITE".toList "sip:user@example.com".toList "SIP/2.0".toList) ∧
      declaredLength hs = some (.valid 9999) ∧
      ((input 1).drop lx.bodyOffset).length = 154 ∧
      assemble lx.startLine hs ((input 1).drop lx.bodyOffset) = .error .incomplete ∧
      ParseSIPMessage (input 1) = .error .incomplete :=
  ⟨_, _, rfl, rfl, rfl, rfl, rfl,
    incomplete_message _ _ _ _ _ _ _ rfl rfl (by decide), rfl⟩

end Sip.Parser

namespace Sip

/-! ## Timeout text -/

/-- C11: for every Timeout `t`, `t.String()` is "Retransmission Timeout" when
`t.GetValue()` is `TIMEOUT_RETRANSMIT` (0), "Transaction Timeout" when it is
`TIMEOUT_TRANSACTION` (1), and "Error while printing Timeout" for every other integer;
`String` is a total function and the receiver after the call is the receiver before. -/
theorem timeout_string_cases (t : Timeout) :
    (t.GetValue = TIMEOUT_RETRANSMIT → t.String = "Retransmission Timeout") ∧
    (t.GetValue = TIMEOUT_TRANSACTION → t.String = "Transaction Timeout") ∧
    (t.GetValue ≠ TIMEOUT_RETRANSMIT → t.GetValue ≠ TIMEOUT_TRANSACTION →
      t.String = "Error while printing Timeout") ∧
    TimeoutOp.apply t TimeoutOp.string = t ∧
    TIMEOUT_RETRANSMIT = 0 ∧ TIMEOUT_TRANSACTION = 1 := by
  refine ⟨?_, ?_, ?_, rfl, rfl, rfl⟩
  · intro h
    simp only [Timeout.GetValue] at h
    simp [Timeout.String, h]
  · intro h
    simp only [Timeout.GetValue] at h
    simp [Timeout.String, h, TIMEOUT_RETRANSMIT, TIMEOUT_TRANSACTION]
  · intro h0 h1
    simp only [Timeout.GetValue] at h0 h1
    simp [Timeout.String, h0, h1]

/-- Witness of C11: the three branches, at the values 0, 1 and 7. -/
theorem timeout_string_cases_witness :
    (NewTimeout 0).String = "Retransmission Timeout" ∧
    (NewTimeout 1).String = "Transaction Timeout" ∧
    (NewTimeout 7).String = "Error while printing Timeout" :=
  ⟨(timeout_string_cases (NewTimeout 0)).1 rfl,
   (timeout_string_cases (NewTimeout 1)).2.1 rfl,
   (timeout_string_cases (NewTimeout 7)).2.2.1 (by decide) (by decide)⟩

/-- C17: for every Timeout `t`, whatever value it held, and every integer `v`, after
`t.SetValue(v)` the call `t.GetValue()` returns `v` and `t.String()` is the text that
`String` gives for `v`. -/
theorem setValue_then_read (t : Timeout) (v : Int) :
    (t.SetValue v).GetValue = v ∧
    (t.SetValue v).String = (NewTimeout v).String ∧
    (TimeoutOp.apply t (TimeoutOp.setValue v)).GetValue = v :=
  ⟨rfl, rfl, rfl⟩

/-- C18: `String` identifies the kind.  For every two Timeouts `a` and `b` whose values
are declared kinds, `a.String() = b.String()` if and only if
`a.GetValue() = b.GetValue()`; and for every Timeout `t`, `t.String()` is the fallback
text "Error while printing Timeout" if and only if `t.GetValue()` is neither declared
kind. -/
theorem string_identifies_kind :
    (∀ a b : Timeout,
      (a.GetValue = TIMEOUT_RETRANSMIT ∨ a.GetValue = TIMEOUT_TRANSACTION) →
      (b.GetValue = TIMEOUT_RETRANSMIT ∨ b.GetValue = TIMEOUT_TRANSACTION) →
      (a.String = b.String ↔ a.GetValue = b.GetValue)) ∧
    (∀ t : Timeout,
      t.String = "Error while printing Timeout" ↔
        (t.GetValue ≠ TIMEOUT_RETRANSMIT ∧ t.GetValue ≠ TIMEOUT_TRANSACTION)) := by
  have hne : ("Retransmission Timeout" : String) ≠ "Transaction Timeout" := by decide
  have hne0 : ("Retransmission Timeout" : String) ≠ "Error while printing Timeout" := by decide
  have hne1 : ("Transaction Timeout" : String) ≠ "Error while printing Timeout" := by decide
  have h01 : TIMEOUT_RETRANSMIT ≠ TIMEOUT_TRANSACTION := by decide
  refine ⟨?_, ?_⟩
  · intro a b ha hb
    simp only [Timeout.GetValue] at ha hb ⊢
    rcases ha with ha | ha <;> rcases hb with hb | hb
    · simp [Timeout.String, ha, hb]
    · simp [Timeout.String, ha, hb, h01, h01.symm, hne]
    · simp [Timeout.String, ha, hb, h01, h01.symm, hne.symm]
    · simp [Timeout.String, ha, hb, h01.symm]
  · intro t
    simp only [Timeout.GetValue]
    by_cases h0 : t.timeout = TIMEOUT_RETRANSMIT
    · simp [Timeout.String, h0, hne0]
    · by_cases h1 : t.timeout = TIMEOUT_TRANSACTION
      · simp [Timeout.String, h1, h01.symm, hne1]
      · simp [Timeout.String, h0, h1]

/-- Witness of C18: a retransmit and a transaction Timeout print differently, and the
value 7 prints the fallback text. -/
theorem string_identifies_kind_witness :
    ((NewTimeout TIMEOUT_RETRANSMIT).String = (NewTimeout TIMEOUT_TRANSACTION).String ↔
      (NewTimeout TIMEOUT_RETRANSMIT).GetValue = (NewTimeout TIMEOUT_TRANSACTION).GetValue) ∧
    ((NewTimeout 7).String = "Error while printing Timeout" ↔
      ((NewTimeout 7).GetValue ≠ TIMEOUT_RETRANSMIT ∧
        (NewTimeout 7).GetValue ≠ TIMEOUT_TRANSACTION)) :=
  ⟨string_identifies_kind.1 (NewTimeout TIMEOUT_RETRANSMIT) (NewTimeout TIMEOUT_TRANSACTION)
      (Or.inl rfl) (Or.inr rfl),
   string_identifies_kind.2 (NewTimeout 7)⟩


end Sip

namespace Sip.Parser

/-! ## The test loops -/

/-- C19: the input list torture2_i and the golden list torture2_o have the same number
of entries (19), so for every index `i` with `i < len(torture2_i)` the lookup
`torture2_o[i]` of `TestTorture2` is in range; and it pairs input `i` with its own
golden: both hold the same Call-ID line, and no two inputs share a Call-ID. -/
theorem torture2_lists_paired (i : Nat) (hi : i < torture2_i.length) :
    torture2_i.length = torture2_o.length ∧ i < torture2_o.length ∧
    (∃ a g l, torture2_i[i]? = some a ∧ torture2_o[i]? = some g ∧
      callIdLine a.toList = some l ∧ callIdLine g.toList = some l) ∧
    (torture2_i.map (fun a => callIdLine a.toList)).Nodup := by
  have hlen : torture2_i.length = 19 := rfl
  have hlen' : torture2_o.length = 19 := rfl
  rw [hlen] at hi
  refine ⟨by rw [hlen, hlen'], by rw [hlen']; exact hi, ?_, by decide⟩
  interval_cases i <;> exact ⟨_, _, _, rfl, rfl, rfl, rfl⟩

/-- Witness of C19: index 16, the OPTIONS request with Call-ID mismatch01. -/
theorem torture2_lists_paired_witness :
    16 < torture2_i.length ∧ torture2_i.length = torture2_o.length ∧
    16 < torture2_o.length ∧
    (∃ a g l, torture2_i[16]? = some a ∧ torture2_o[16]? = some g ∧
      callIdLine a.toList = some l ∧ callIdLine g.toList = some l) :=
  ⟨by decide, (torture2_lists_paired 16 (by decide)).1, (torture2_lists_paired 16 (by decide)).2.1,
    (torture2_lists_paired 16 (by decide)).2.2.1⟩

theorem mismatchLoop_reads_in_range (d : Text) (rest : Text) (j k : Nat)
    (h : j + rest.length ≤ d.length) :
    (∀ i ∈ (mismatchLoop d rest j k).reads, i < d.length) ∧
    (∀ n, (mismatchLoop d rest j k).ending ≠ .outOfRange n) := by
  induction rest generalizing j k with
  | nil => simp [mismatchLoop]
  | cons sj rest ih =>
    simp only [List.length_cons] at h
    have hj : j < d.length := by omega
    have hget : d.get? j = some (d.get ⟨j, hj⟩) := List.get?_eq_get hj
    have ih1 := ih (j + 1) k (by omega)
    have ih2 := ih (j + 1) (k + 1) (by omega)
    unfold mismatchLoop
    rw [hget]
    simp only
    split
    · split
      · simp [hj]
      · refine ⟨?_, ih2.2⟩
        intro i hi
        simp only [List.mem_cons] at hi
        rcases hi with rfl | hi
        · exact hj
        · exact ih2.1 i hi
    · refine ⟨?_, ih1.2⟩
      intro i hi
      simp only [List.mem_cons] at hi
      rcases hi with rfl | hi
      · exact hj
      · exact ih1.1 i hi

/-- The mismatch-report loop stays inside `d` whenever the golden string is not longer
than the serialized one. -/
theorem mismatchReport_safe_of_le (d s : Text) (h : s.length ≤ d.length) :
    (∀ i ∈ (mismatchReport d s).reads, i < d.length) ∧
    (∀ n, (mismatchReport d s).ending ≠ .outOfRange n) :=
  mismatchLoop_reads_in_range d s 0 0 (by omega)

/-- C20, at the failing inputs.  For `d = "CSeq: 8"` and `s = "CSeq: 8 INVITE\n"` the
trimmed forms differ, the loop finds no mismatch in the first seven bytes and then
reads `d[7]` with `len(d) = 7`.  The same happens in a turn of `TestTorture5`: the line
`To: <sip:a@b>   ;tag=1` is accepted and serialized as `To: <sip:a@b>;tag=1`, the
trimmed forms differ, the loop logs eight mismatches and reads `d[21]` with
`len(d) = 21`. -/
theorem mismatch_loop_reads_past_end :
    (TrimSpace "CSeq: 8".toList ≠ TrimSpace "CSeq: 8 INVITE\n".toList ∧
      mismatchReport "CSeq: 8".toList "CSeq: 8 INVITE\n".toList =
        { reads := [0, 1, 2, 3, 4, 5, 6, 7], logged := [], ending := .outOfRange 7 } ∧
      "CSeq: 8".toList.length = 7) ∧
    (∃ hp sh, CreateParser "To: <sip:a@b>   ;tag=1\n".toList = .ok hp ∧ hp.Parse = .ok sh ∧
      sh.String = "To: <sip:a@b>;tag=1\r\n".toList ∧
      TrimSpace sh.String ≠ TrimSpace "To: <sip:a@b>   ;tag=1\n".toList ∧
      (mismatchReport sh.String "To: <sip:a@b>   ;tag=1\n".toList).ending = .outOfRange 21 ∧
      21 ∈ (mismatchReport sh.String "To: <sip:a@b>   ;tag=1\n".toList).reads ∧
      (mismatchReport sh.String "To: <sip:a@b>   ;tag=1\n".toList).logged.length = 8 ∧
      sh.String.length = 21) := by
  refine ⟨⟨by decide, by rfl, by rfl⟩, ⟨_, _, rfl, rfl, ?_, ?_, ?_, ?_, ?_, ?_⟩⟩
  · rfl
  · decide
  · rfl
  · decide
  · rfl
  · rfl


/-! ## Trimming and cutting -/

theorem hasSpace_eq_false_iff (t : Text) : hasSpace t = false ↔ ∀ c ∈ t, isSpace c = false := by
  simp [hasSpace, List.any_eq_false]

theorem trimLeft_of_noSpace (t : Text) (h : hasSpace t = false) : trimLeft t = t := by
  rw [hasSpace_eq_false_iff] at h
  unfold trimLeft
  rw [List.dropWhile_eq_self_iff]
  intro hl
  simpa using h _ (List.get_mem t 0 hl)

theorem trimRight_of_noSpace (t : Text) (h : hasSpace t = false) : trimRight t = t := by
  rw [hasSpace_eq_false_iff] at h
  show t.rdropWhile isSpace = t
  rw [List.rdropWhile_eq_self_iff]
  intro hl
  simpa using h _ (List.getLast_mem hl)

theorem TrimSpace_of_noSpace (t : Text) (h : hasSpace t = false) : TrimSpace t = t := by
  unfold TrimSpace
  rw [trimLeft_of_noSpace t h, trimRight_of_noSpace t h]

theorem mem_of_mem_TrimSpace {c : Char} {t : Text} (h : c ∈ TrimSpace t) : c ∈ t := by
  have h1 : c ∈ trimLeft t := (List.rdropWhile_prefix isSpace _).subset h
  exact (List.dropWhile_suffix isSpace).subset h1

theorem dropWhile_rdropWhile (p : Char → Bool) (t : Text) :
    List.dropWhile p (List.rdropWhile p (List.dropWhile p t)) =
      List.rdropWhile p (List.dropWhile p t) := by
  obtain ⟨r, hr⟩ := List.rdropWhile_prefix p (List.dropWhile p t)
  cases hw : List.rdropWhile p (List.dropWhile p t) with
  | nil => rfl
  | cons x xs =>
    have hu : List.dropWhile p t = x :: (xs ++ r) := by rw [← hr, hw]; rfl
    have hid : List.dropWhile p (List.dropWhile p t) = List.dropWhile p t :=
      List.dropWhile_idempotent p t
    rw [hu] at hid
    by_cases hp : p x = true
    · rw [List.dropWhile_cons_of_pos hp] at hid
      have hlen := (List.dropWhile_suffix p (l := xs ++ r)).length_le
      rw [hid] at hlen
      simp at hlen
    · simp [List.dropWhile_cons, hp]

theorem TrimSpace_idem (t : Text) : TrimSpace (TrimSpace t) = TrimSpace t := by
  show List.rdropWhile isSpace (List.dropWhile isSpace
    (List.rdropWhile isSpace (List.dropWhile isSpace t))) =
      List.rdropWhile isSpace (List.dropWhile isSpace t)
  rw [dropWhile_rdropWhile, List.rdropWhile_idempotent isSpace]

theorem cutTop_eq {angles : Bool} {sep : Char} {s : Scan} {t a b : Text}
    (h : cutTop angles sep s t = some (a, b)) : t = a ++ sep :: b := by
  induction t generalizing s a with
  | nil => simp [cutTop] at h
  | cons c cs ih =>
    unfold cutTop at h
    split at h
    · next hc =>
      simp only [Bool.and_eq_true, decide_eq_true_eq] at hc
      simp only [Option.some.injEq, Prod.mk.injEq] at h
      obtain ⟨rfl, rfl⟩ := h
      simp [hc.2]
    · cases hrec : cutTop angles sep (s.step c) cs with
      | none => simp [hrec] at h
      | some r =>
        obtain ⟨a', b'⟩ := r
        simp only [hrec, Option.some.injEq, Prod.mk.injEq] at h
        obtain ⟨rfl, rfl⟩ := h
        rw [ih hrec]
        rfl

theorem cutPlain_append (sep : Char) (a b : Text) (h : sep ∉ a) :
    cutPlain sep (a ++ sep :: b) = some (a, b) := by
  induction a with
  | nil => simp [cutPlain]
  | cons c cs ih =>
    have hc : c ≠ sep := fun e => h (by simp [e])
    have hcs : sep ∉ cs := fun e => h (List.mem_cons_of_mem _ e)
    simp [cutPlain, hc, ih hcs]

theorem Scan.step_unquoted (s : Scan) (c : Char) (hs : s.quoted = false) (hc : c ≠ DQUOTE) :
    (s.step c).quoted = false := by
  unfold Scan.step
  simp only [hs, Bool.false_eq_true, if_false, hc]
  split
  · rfl
  · split
    · rfl
    · exact hs

theorem cutTop_unquoted (sep : Char) (s : Scan) (a b : Text) (hs : s.quoted = false)
    (ha : ∀ c ∈ a, c ≠ DQUOTE ∧ c ≠ sep) :
    cutTop false sep s (a ++ sep :: b) = some (a, b) := by
  induction a generalizing s with
  | nil => simp [cutTop, Scan.top, hs]
  | cons c cs ih =>
    have hc := ha c (List.mem_cons_self _ _)
    have hcs : ∀ x ∈ cs, x ≠ DQUOTE ∧ x ≠ sep := fun x hx => ha x (List.mem_cons_of_mem _ hx)
    simp [cutTop, hc.2, ih (s.step c) (Scan.step_unquoted s c hs hc.1) hcs]


/-! ## Parameters and segments -/

theorem hasSpace_append (a b : Text) : hasSpace (a ++ b) = (hasSpace a || hasSpace b) := by
  simp [hasSpace, List.any_append]

theorem hasSpace_cons (c : Char) (t : Text) : hasSpace (c :: t) = (isSpace c || hasSpace t) := by
  simp [hasSpace]

theorem param_verbatim (p : Text) (h : hasSpace p = false) :
    (parseParam p).encode = ';' :: p := by
  unfold parseParam
  cases hc : cutTop false '=' Scan.start p with
  | none => simp [Param.encode, TrimSpace_of_noSpace p h]
  | some r =>
    obtain ⟨n, v⟩ := r
    have hp := cutTop_eq hc
    rw [hp, hasSpace_append, hasSpace_cons] at h
    simp only [Bool.or_eq_false_iff] at h
    simp [Param.encode, TrimSpace_of_noSpace n h.1, TrimSpace_of_noSpace v h.2.2, hp]

theorem splitTop_ne_nil (angles : Bool) (sep : Char) (s : Scan) (t : Text) :
    splitTop angles sep s t ≠ [] := by
  induction t generalizing s with
  | nil => simp [splitTop]
  | cons c cs ih =>
    unfold splitTop
    split
    · simp
    · cases h : splitTop angles sep (s.step c) cs with
      | nil => exact absurd h (ih _)
      | cons l ls => simp [consHead]

/-- Splitting a text without white space at semicolons and writing the segments after
the first back as parameters gives the text again. -/
theorem split_params_verbatim (s : Scan) (t first : Text) (ps : List Text)
    (hsplit : splitTop false ';' s t = first :: ps) (h : hasSpace t = false) :
    t = first ++ encodeParams (ps.map parseParam) ∧ hasSpace first = false := by
  induction t generalizing s first ps with
  | nil =>
    simp only [splitTop, List.cons.injEq] at hsplit
    obtain ⟨rfl, rfl⟩ := hsplit
    simp [encodeParams, hasSpace]
  | cons c cs ih =>
    rw [hasSpace_cons] at h
    simp only [Bool.or_eq_false_iff] at h
    unfold splitTop at hsplit
    split at hsplit
    · next hc =>
      simp only [Bool.and_eq_true, decide_eq_true_eq] at hc
      simp only [List.cons.injEq] at hsplit
      obtain ⟨rfl, rfl⟩ := hsplit
      cases hrec : splitTop false ';' Scan.start cs with
      | nil => exact absurd hrec (splitTop_ne_nil _ _ _ _)
      | cons f' ps' =>
        obtain ⟨hcs, hf'⟩ := ih Scan.start f' ps' hrec h.2
        refine ⟨?_, by simp [hasSpace]⟩
        simp only [List.map_cons, encodeParams, List.nil_append]
        rw [param_verbatim f' hf', hc.2]
        simp only [List.cons_append, List.cons.injEq, true_and]
        exact hcs
    · cases hrec : splitTop false ';' (s.step c) cs with
      | nil => exact absurd hrec (splitTop_ne_nil _ _ _ _)
      | cons f' ps' =>
        rw [hrec] at hsplit
        simp only [consHead, List.cons.injEq] at hsplit
        obtain ⟨rfl, rfl⟩ := hsplit
        obtain ⟨hcs, hf'⟩ := ih (s.step c) f' ps' hrec h.2
        refine ⟨?_, by rw [hasSpace_cons]; simp [h.1, hf']⟩
        simp only [List.cons_append, List.cons.injEq, true_and]
        exact hcs

theorem Scan.step_space (s : Scan) (c : Char) (hs : s.quoted = false) (hc : isSpace c = true) :
    s.step c = s := by
  have h1 : c ≠ DQUOTE := by rintro rfl; simp [isSpace, DQUOTE, HT, LF, CR] at hc
  have h2 : c ≠ '<' := by rintro rfl; simp [isSpace, HT, LF, CR] at hc
  have h3 : c ≠ '>' := by rintro rfl; simp [isSpace, HT, LF, CR] at hc
  simp [Scan.step, hs, h1, h2, h3]

theorem splitTop_space_append (s : Scan) (ws b f : Text) (segs : List Text)
    (hs : s.quoted = false) (hws : ∀ c ∈ ws, isSpace c = true)
    (hb : splitTop false ';' s b = f :: segs) :
    splitTop false ';' s (ws ++ b) = (ws ++ f) :: segs := by
  induction ws with
  | nil => simpa using hb
  | cons c cs ih =>
    have hc := hws c (List.mem_cons_self _ _)
    have hsep : c ≠ ';' := by rintro rfl; simp [isSpace, HT, LF, CR] at hc
    have ih' := ih (fun x hx => hws x (List.mem_cons_of_mem _ hx))
    simp [splitTop, hsep, Scan.step_space s c hs hc, ih', consHead]

theorem TrimSpace_spaces (ws : Text) (hws : ∀ c ∈ ws, isSpace c = true) : TrimSpace ws = [] := by
  have h : trimLeft ws = [] := by
    unfold trimLeft
    rw [List.dropWhile_eq_nil_iff]
    exact hws
  simp [TrimSpace, h, trimRight]

/-- The address grammar on an unquoted display name in front of a bracketed URI that
is followed by nothing or by parameters, white space allowed in front of them. -/
theorem parseAddress_named (name uri ws params : Text)
    (hq : DQUOTE ∉ name) (hlt : '<' ∉ name) (hgt : '>' ∉ uri)
    (huri : TrimSpace uri ≠ []) (hsp : hasSpace (TrimSpace uri) = false)
    (hws : ∀ c ∈ ws, isSpace c = true)
    (hparams : params = [] ∨ ∃ r, params = ';' :: r) :
    ∃ segs, splitTop false ';' Scan.start params = [] :: segs ∧
      parseAddress (name ++ '<' :: (uri ++ '>' :: (ws ++ params))) =
        .ok { displayName := displayOf name, uri := TrimSpace uri,
              params := segs.map parseParam } := by
  have hcut : cutAngle (name ++ '<' :: (uri ++ '>' :: (ws ++ params))) =
      some (name, uri ++ '>' :: (ws ++ params)) := by
    unfold cutAngle
    rw [cutTop_unquoted '<' Scan.start name _ rfl
      (fun c hc => ⟨fun e => hq (e ▸ hc), fun e => hlt (e ▸ hc)⟩)]
  have hempty : (TrimSpace uri).isEmpty = false := by
    cases h : TrimSpace uri with
    | nil => exact absurd h huri
    | cons _ _ => rfl
  have hsegs : ∃ segs, splitTop false ';' Scan.start params = [] :: segs := by
    rcases hparams with rfl | ⟨r, rfl⟩
    · exact ⟨[], rfl⟩
    · exact ⟨splitTop false ';' Scan.start r, by simp [splitTop, Scan.top, Scan.start]⟩
  obtain ⟨segs, hsegs⟩ := hsegs
  refine ⟨segs, hsegs, ?_⟩
  unfold parseAddress
  rw [hcut]
  simp only
  rw [cutPlain_append '>' uri (ws ++ params) hgt]
  simp only
  rw [splitTop_space_append Scan.start ws params [] segs rfl hws hsegs]
  simp [hempty, hsp, TrimSpace_spaces ws hws]

theorem displayOf_unquoted (name : Text) (hq : DQUOTE ∉ name) (hne : TrimSpace name ≠ []) :
    displayOf name = some (TrimSpace name) := by
  unfold displayOf
  have hstrip : stripQuotes (TrimSpace name) = TrimSpace name := by
    cases h : TrimSpace name with
    | nil => rfl
    | cons c rest =>
      have hc : c ≠ DQUOTE := by
        intro e
        apply hq
        apply mem_of_mem_TrimSpace
        rw [h, e]
        exact List.mem_cons_self _ _
      simp [stripQuotes, hc]
  simp only [hstrip, TrimSpace_idem]
  cases h : TrimSpace name with
  | nil => exact absurd h hne
  | cons _ _ => rfl


/-! ## Addresses in headers -/

/-- C15: for every To or From header whose display name is unquoted text in front of
`<uri>` (followed by nothing or by parameters), the header is accepted and the
serialized header writes the display name as one double-quoted string followed by a
single space and the bracketed URI; parameters without white space follow as they came. -/
theorem display_name_quoted (k : HeaderKind) (header name uri ws params : Text)
    (hk : k = .To ∨ k = .From)
    (hq : DQUOTE ∉ name) (hlt : '<' ∉ name) (hne : TrimSpace name ≠ [])
    (hgt : '>' ∉ uri) (huri : TrimSpace uri ≠ []) (hsp : hasSpace (TrimSpace uri) = false)
    (hws : ∀ c ∈ ws, isSpace c = true)
    (hparams : params = [] ∨ ∃ r, params = ';' :: r) :
    ∃ sh ps,
      HeaderParser.Parse
        { kind := k, name := header, value := name ++ '<' :: (uri ++ '>' :: (ws ++ params)) }
        = .ok sh ∧
      sh.value =
        .address { displayName := some (TrimSpace name), uri := TrimSpace uri, params := ps } ∧
      sh.String = header ++ ':' :: ' ' :: (DQUOTE :: (TrimSpace name ++ [DQUOTE, ' ']) ++
        '<' :: (TrimSpace uri ++ '>' :: encodeParams ps)) ++ CRLF ∧
      (hasSpace params = false → encodeParams ps = params) := by
  obtain ⟨segs, hsplit, hparse⟩ :=
    parseAddress_named name uri ws params hq hlt hgt huri hsp hws hparams
  rw [displayOf_unquoted name hq hne] at hparse
  refine ⟨{ kind := k, name := header,
            value := .address { displayName := some (TrimSpace name), uri := TrimSpace uri,
                                params := segs.map parseParam } },
    segs.map parseParam, ?_, rfl, ?_, ?_⟩
  · unfold HeaderParser.Parse
    have hv : parseValue k (name ++ '<' :: (uri ++ '>' :: (ws ++ params))) =
        (match parseAddress (name ++ '<' :: (uri ++ '>' :: (ws ++ params))) with
        | .error e => .error e
        | .ok a => .ok (.address a)) := by
      rcases hk with rfl | rfl <;> rfl
    simp only [hv, hparse]
  · simp [TypedHeader.String, TypedHeader.line, HeaderValue.encode, Address.encode]
  · intro hts
    have := (split_params_verbatim Scan.start params [] segs hsplit hts).1
    simpa using this.symm

/-- Witness of C15: `Bell, Alexander <sip:a.g.bell@example.com>;tag=43` in a From header,
as in torture2_i[14]. -/
theorem display_name_quoted_witness :
    ∃ sh,
      HeaderParser.Parse
        { kind := .From, name := "From".toList,
          value := "Bell, Alexander ".toList ++
            '<' :: ("sip:a.g.bell@example.com".toList ++ '>' :: ([] ++ ";tag=43".toList)) }
        = .ok sh ∧
      sh.String = "From: \"Bell, Alexander\" <sip:a.g.bell@example.com>;tag=43\r\n".toList :=
  have h := display_name_quoted .From "From".toList "Bell, Alexander ".toList
    "sip:a.g.bell@example.com".toList [] ";tag=43".toList (Or.inr rfl) (by decide) (by decide)
    (by decide) (by decide) (by decide) (by decide) (by decide) (Or.inr ⟨_, rfl⟩)
  match h with
  | ⟨sh, _, hparse, _, hstr, henc⟩ => ⟨sh, hparse, by rw [hstr, henc (by decide)]; rfl⟩


end Sip.Parser
